import Mathlib

/-!
Verification of the NSX-T configuration script (`zpod_component_add_nsx.py`).

The script drives an NSX manager through REST calls.  The embedding below
renders each Python function as a pure Lean function over an abstract
control-plane client: each HTTP endpoint becomes a parameter returning either
a decoded JSON payload or a raised exception (`Except PyErr`).  JSON resource
objects are restricted to the fields the script's control flow actually reads
(`display_name`, `id`, `path`, `server`, status fields); payload fields that
are only forwarded verbatim to the backend (credentials, host-switch spec,
descriptions) are elided, since no branch of the script inspects them.
-/

/-- Python exception values.  Only the class and the message (`str(e)`) are
observable to the script's error handling, so that is all we keep. -/
inductive PyErr where
  | exn (msg : String)
  | valueError (msg : String)
  | nameError (msg : String)
deriving DecidableEq, Repr

/-- Python `str(e)`: the message carried by the exception. -/
def PyErr.str : PyErr → String
  | .exn m => m
  | .valueError m => m
  | .nameError m => m

/-- `prefixOf n l`: `n` is a prefix of `l` (character-list version). -/
def prefixOf : List Char → List Char → Bool
  | [], _ => true
  | _ :: _, [] => false
  | a :: as, b :: bs => a == b && prefixOf as bs

/-- Python's substring test `needle in hay`, on explicit character lists. -/
def containsSub : List Char → List Char → Bool
  | [], needle => needle.isEmpty
  | h :: t, needle => prefixOf needle (h :: t) || containsSub t needle

/-- Python `sub in s` (case sensitive). -/
def strIn (sub s : String) : Bool := containsSub s.data sub.data

/-- Lowering of a string, as a character list (Python `str.lower` on the
ASCII messages the script compares). -/
def lowerStr (s : String) : List Char := s.data.map Char.toLower

/-- Python `sub in s.lower()` for an already-lowercase literal `sub`. -/
def strInLower (sub s : String) : Bool := containsSub (lowerStr s) sub.data

/-- A JSON resource object, restricted to the fields the script reads. -/
structure Resource where
  display_name : Option String := none
  id : Option String := none
  path : Option String := none
  server : Option String := none
  cidr : Option String := none
  compute_collection_id : Option String := none
  transport_node_profile_id : Option String := none
deriving DecidableEq, Repr

/-- The script's path-normalization idiom:
`if "path" not in r and "id" in r: r["path"] = pre + r["id"]`. -/
def ensurePath (pre : String) (r : Resource) : Resource :=
  match r.path, r.id with
  | none, some i => { r with path := some (pre ++ i) }
  | _, _ => r

/-- One resource kind's HTTP surface: the list endpoint (GET) and the create
endpoint (POST, or PUT at a deterministic path).  `σ` is the backend state;
each call returns the new state and the decoded response or a raised error. -/
structure Client (σ : Type) where
  list : σ → σ × Except PyErr (List Resource)
  create : σ → Resource → σ × Except PyErr Resource

/-- Instrumented reference backend state: the kind's remote resources plus a
counter of create calls issued against it. -/
structure World where
  resources : List Resource := []
  nextId : Nat := 0
  createCalls : Nat := 0
deriving DecidableEq, Repr

/-- Reference list endpoint: returns the stored resources. -/
def wListOk (w : World) : World × Except PyErr (List Resource) := (w, .ok w.resources)

/-- Reference create endpoint: the NSX API is not idempotent at the protocol
level, so a create whose key (`key payload existing`) collides with a stored
resource is a conflict error; otherwise the resource is stored with a fresh
server-assigned id and echoed back. -/
def wCreate (key : Resource → Resource → Bool) (w : World) (p : Resource) :
    World × Except PyErr Resource :=
  if w.resources.any (key p) then
    ({ w with createCalls := w.createCalls + 1 },
     .error (.exn "The object already exists"))
  else
    let made := { p with id := some ("id-" ++ toString w.nextId) }
    ({ resources := w.resources ++ [made], nextId := w.nextId + 1,
       createCalls := w.createCalls + 1 }, .ok made)

/-- The reference backend for one resource kind. -/
def refClient (key : Resource → Resource → Bool) : Client World :=
  { list := wListOk, create := wCreate key }

/-- Display-name uniqueness key (IP blocks, IP pools, transport node
profiles, host transport-node collections). -/
def nameKey (p r : Resource) : Bool := r.display_name == p.display_name

/-- Server uniqueness key (compute managers: NSX rejects registering the same
vCenter server twice). -/
def serverKey (p r : Resource) : Bool := r.server == p.server

/-- Backend driven by a script of list responses (`lists n` is the n-th list
call's response) and a fixed create response; used to exercise the
conflict-recovery paths, including a concurrent writer changing the listing
between the first lookup and the re-lookup. -/
structure RaceWorld where
  listCalls : Nat := 0
  createCalls : Nat := 0
deriving DecidableEq, Repr

def seqClient (lists : Nat → Except PyErr (List Resource))
    (cres : Except PyErr Resource) : Client RaceWorld :=
  { list := fun w => ({ w with listCalls := w.listCalls + 1 }, lists w.listCalls),
    create := fun w _ => ({ w with createCalls := w.createCalls + 1 }, cres) }

/-- `r.get("display_name") == dn` (a missing key never matches). -/
def nameMatches (dn : String) (r : Resource) : Bool := r.display_name == some dn

/-- `cm.get("server") == server_name`. -/
def serverMatches (srv : String) (r : Resource) : Bool := r.server == some srv

/-- `get_existing_compute_manager`: list all compute managers and return the
first whose `server` equals `server_name`; any listing error is swallowed and
treated as "not found". -/
def get_existing_compute_manager {σ : Type} (C : Client σ) (s : σ)
    (server_name : String) : σ × Option Resource :=
  match C.list s with
  | (s1, .error _) => (s1, none)
  | (s1, .ok cms) => (s1, cms.find? (serverMatches server_name))

/-- `create_compute_manager`: create the vCenter compute manager or return the
existing one.  The TLS `thumbprint` (obtained by `get_ssl_thumbprint` before
the lookup) and the credentials only travel inside the payload, which the
script never inspects, so they are elided from the modelled payload. -/
def create_compute_manager {σ : Type} (C : Client σ) (s : σ)
    (domain thumbprint : String) : σ × Except PyErr Resource :=
  let vsphere_hostname := "vcsa." ++ domain
  match get_existing_compute_manager C s vsphere_hostname with
  | (s1, some cm) => (s1, .ok cm)
  | (s1, none) =>
    let payload : Resource :=
      { display_name := some vsphere_hostname, server := some vsphere_hostname }
    match C.create s1 payload with
    | (s2, .ok r) => (s2, .ok r)
    | (s2, .error e) =>
      if strIn "already registered with NSX" e.str || strIn "error_code" e.str then
        match get_existing_compute_manager C s2 vsphere_hostname with
        | (s3, some cm) => (s3, .ok cm)
        | (s3, none) => (s3, .error e)
      else (s2, .error e)

/-- REST prefix used to synthesize IP-block paths. -/
def ipBlockPre : String := "/api/v1/pools/ip-blocks/"

/-- `get_existing_ip_block`: first display-name match among the listed IP
blocks, path-normalized; a listing error is treated as "not found". -/
def get_existing_ip_block {σ : Type} (C : Client σ) (s : σ)
    (display_name : String) : σ × Option Resource :=
  match C.list s with
  | (s1, .error _) => (s1, none)
  | (s1, .ok blocks) =>
    match blocks.find? (nameMatches display_name) with
    | some b => (s1, some (ensurePath ipBlockPre b))
    | none => (s1, none)

/-- `create_ip_block`: create the fixed IP block or return the existing one;
on a duplicate-signature create error, re-run the lookup. -/
def create_ip_block {σ : Type} (C : Client σ) (s : σ) : σ × Except PyErr Resource :=
  let display_name := "ip-block-vtep"
  match get_existing_ip_block C s display_name with
  | (s1, some b) => (s1, .ok (ensurePath ipBlockPre b))
  | (s1, none) =>
    let payload : Resource :=
      { display_name := some display_name, cidr := some "172.16.20.0/24" }
    match C.create s1 payload with
    | (s2, .ok r) => (s2, .ok (ensurePath ipBlockPre r))
    | (s2, .error e) =>
      if strInLower "already exists" e.str || strInLower "duplicate" e.str then
        match get_existing_ip_block C s2 display_name with
        | (s3, some b) => (s3, .ok (ensurePath ipBlockPre b))
        | (s3, none) => (s3, .error e)
      else (s2, .error e)

/-- REST prefix used to synthesize IP-pool paths. -/
def ipPoolPre : String := "/policy/api/v1/infra/ip-pools/"

/-- `display_name.lower().replace(" ", "-").replace("_", "-")`. -/
def slugify (s : String) : String :=
  String.mk ((lowerStr s).map fun c =>
    if c = ' ' then '-' else if c = '_' then '-' else c)

/-- `get_existing_ip_pool`: first display-name match, path-normalized. -/
def get_existing_ip_pool {σ : Type} (C : Client σ) (s : σ)
    (display_name : String) : σ × Option Resource :=
  match C.list s with
  | (s1, .error _) => (s1, none)
  | (s1, .ok pools) =>
    match pools.find? (nameMatches display_name) with
    | some p => (s1, some (ensurePath ipPoolPre p))
    | none => (s1, none)

/-- `create_ip_pool`: create the fixed IP pool (a PUT at the slugified
display name) or return the existing one. -/
def create_ip_pool {σ : Type} (C : Client σ) (s : σ) : σ × Except PyErr Resource :=
  let display_name := "ip-pool-vtep"
  match get_existing_ip_pool C s display_name with
  | (s1, some p) => (s1, .ok p)
  | (s1, none) =>
    let payload : Resource := { display_name := some display_name }
    -- the PUT is addressed at the slugified name; addressing lives in the
    -- HTTP layer, which the `Client` abstracts
    let _pool_id := slugify display_name
    match C.create s1 payload with
    | (s2, .ok r) => (s2, .ok (ensurePath ipPoolPre r))
    | (s2, .error e) =>
      if strInLower "already exists" e.str || strInLower "duplicate" e.str then
        match get_existing_ip_pool C s2 display_name with
        | (s3, some p) => (s3, .ok p)
        | (s3, none) => (s3, .error e)
      else (s2, .error e)

/-- `get_existing_transport_node_profile`: first display-name match, returned
exactly as the backend sent it (no path normalization here). -/
def get_existing_transport_node_profile {σ : Type} (C : Client σ) (s : σ)
    (display_name : String) : σ × Option Resource :=
  match C.list s with
  | (s1, .error _) => (s1, none)
  | (s1, .ok tnps) => (s1, tnps.find? (nameMatches display_name))

/-- `create_transport_node_profile`: create the fixed profile (PUT at its
display name) or return the existing one; the host-switch spec in the payload
is opaque to the script and elided.  The response is returned raw. -/
def create_transport_node_profile {σ : Type} (C : Client σ) (s : σ) :
    σ × Except PyErr Resource :=
  let display_name := "tnp"
  match get_existing_transport_node_profile C s display_name with
  | (s1, some t) => (s1, .ok t)
  | (s1, none) =>
    let payload : Resource := { display_name := some display_name }
    match C.create s1 payload with
    | (s2, .ok r) => (s2, .ok r)
    | (s2, .error e) =>
      if strInLower "already exists" e.str || strInLower "duplicate" e.str then
        match get_existing_transport_node_profile C s2 display_name with
        | (s3, some t) => (s3, .ok t)
        | (s3, none) => (s3, .error e)
      else (s2, .error e)

/-- `get_existing_host_transport_node_collection`: first display-name match,
returned raw. -/
def get_existing_host_transport_node_collection {σ : Type} (C : Client σ)
    (s : σ) (display_name : String) : σ × Option Resource :=
  match C.list s with
  | (s1, .error _) => (s1, none)
  | (s1, .ok hs) => (s1, hs.find? (nameMatches display_name))

/-- `create_host_transport_node_collection`: create the collection binding
the compute collection to the transport node profile, or return the existing
one.  The response is returned raw. -/
def create_host_transport_node_collection {σ : Type} (C : Client σ) (s : σ)
    (ccid tnp_path : String) : σ × Except PyErr Resource :=
  let display_name := "Host transport node collection"
  match get_existing_host_transport_node_collection C s display_name with
  | (s1, some h) => (s1, .ok h)
  | (s1, none) =>
    let payload : Resource :=
      { display_name := some display_name, compute_collection_id := some ccid,
        transport_node_profile_id := some tnp_path }
    match C.create s1 payload with
    | (s2, .ok r) => (s2, .ok r)
    | (s2, .error e) =>
      if strInLower "already exists" e.str || strInLower "duplicate" e.str then
        match get_existing_host_transport_node_collection C s2 display_name with
        | (s3, some h) => (s3, .ok h)
        | (s3, none) => (s3, .error e)
      else (s2, .error e)

/-- Backend surface used by `create_block_subnet`: the initial subnet listing
GET (response discarded), the existence probe for the derived subnet id
(`.ok true` models an HTTP 200), the PUT creating the subnet, and the payload
returned when the subnet already exists. -/
structure SubnetBackend where
  getSubnets : Except PyErr Unit
  probe : Except PyErr Bool
  putSubnet : String → Except PyErr Resource
  existingSubnet : Resource

/-- `create_block_subnet`: add the fixed static subnet to the pool unless the
probe says it already exists.  The second component counts subnet PUT
(network write) requests issued. -/
def create_block_subnet (B : SubnetBackend) (pool_path block_path : String) :
    Except PyErr Resource × Nat :=
  let pool_id := (pool_path.splitOn "/").getLastD ""
  match B.getSubnets with
  | .error e => (.error e, 0)
  | .ok _ =>
    let subnet_id := "subnet-" ++ pool_id
    let subnet_exists :=
      match B.probe with
      | .ok b => b
      | .error _ => false    -- probe error means: subnet does not exist yet
    if subnet_exists then (.ok B.existingSubnet, 0)
    else
      match B.putSubnet subnet_id with
      | .ok r => (.ok r, 1)
      | .error e => (.error e, 1)

/-- Step 5 of `execute_config_script` (the block-subnet stage): validate that
the pool and block descriptors carry a `path`, then call
`create_block_subnet`.  The second component counts subnet write requests. -/
def block_subnet_stage (ip_pool ip_block : Resource) (B : SubnetBackend) :
    Except PyErr Resource × Nat :=
  match ip_pool.path with
  | none => (.error (.valueError "IP Pool object missing \x27path\x27 key"), 0)
  | some pool_path =>
    match ip_block.path with
    | none => (.error (.valueError "IP Block object missing \x27path\x27 key"), 0)
    | some block_path => create_block_subnet B pool_path block_path

/-- Head of `execute_config_script`: after resolving the component from the
database (no SDN traffic), the feature-flag gate runs before the NSX client
is constructed.  `rest` stands for everything after the gate (authentication,
EULA acceptance and the 13 provisioning steps); it returns its outcome
together with the number of requests it issued to the SDN control plane.  The
second component of the result counts the SDN requests of the whole run. -/
def execute_config_script (ff_component_wait_for_status : String)
    (rest : Unit → Except PyErr Unit × Nat) : Except PyErr Unit × Nat :=
  if ff_component_wait_for_status ≠ "true" then
    (.error (.valueError "ff_component_wait_for_status is not true"), 0)
  else rest ()

/-- Outcome trace of `check_compute_manager_status`: how many status checks
it performed, and whether one of them reported "UP". -/
structure CMTrace where
  checks : Nat
  sawUp : Bool
deriving DecidableEq, Repr

/-- The final status check after the polling budget is exhausted: whatever
the fetch returns — "UP", any other status, or an exception — the function
returns normally. -/
def cmFinalCheck (fetch : Nat → Except PyErr (Option String)) (k : Nat) :
    Except PyErr CMTrace :=
  match fetch k with
  | .ok st => if st = some "UP" then .ok ⟨k + 1, true⟩ else .ok ⟨k + 1, false⟩
  | .error _ => .ok ⟨k + 1, false⟩

/-- The `while time.time() - start_time < timeout` polling loop of
`check_compute_manager_status`.  Time is idealized: each status fetch is
instantaneous and each `time.sleep(10)` advances the clock by `interval`;
`t` is the elapsed time, `k` the number of checks performed so far.  `fetch k`
is the k-th status fetch: the decoded `connection_status` field (possibly
absent) or a raised exception, which the loop catches and retries. -/
def cmAux (fetch : Nat → Except PyErr (Option String)) (timeout interval : Nat) :
    Nat → Nat → Nat → Except PyErr CMTrace
  | 0, _, k => cmFinalCheck fetch k
  | fuel + 1, t, k =>
    if t < timeout then
      match fetch k with
      | .ok st =>
        if st = some "UP" then .ok ⟨k + 1, true⟩
        else cmAux fetch timeout interval fuel (t + interval) (k + 1)
      | .error _ => cmAux fetch timeout interval fuel (t + interval) (k + 1)
    else cmFinalCheck fetch k

/-- `check_compute_manager_status` as called by the orchestrator:
timeout 120, interval 10, hence at most 12 in-budget checks (fuel 12). -/
def check_compute_manager_status (fetch : Nat → Except PyErr (Option String)) :
    Except PyErr CMTrace :=
  cmAux fetch 120 10 12 0 0

/-- Step 2 of `execute_config_script`: the status poll is wrapped in
`try/except`; on any failure a warning is printed and the workflow proceeds.
Returns whether the workflow proceeds to the next step. -/
def cm_status_step (fetch : Nat → Except PyErr (Option String)) : Bool :=
  match check_compute_manager_status fetch with
  | .ok _ => true
  | .error _ => true

/-- The slice of a per-node `/transport-nodes/{id}/status` response that the
verification loop reads: the top-level `status` field and the nested
`node_status.host_node_deployment_status` field (`none` when the key — or the
enclosing `node_status` object — is absent). -/
structure NodeStatusData where
  status : Option String := none
  deployment : Option String := none
deriving DecidableEq, Repr

deriving instance DecidableEq for Except

/-- One entry of the `/transport-nodes` listing, together with the outcome
that this attempt's per-node status fetch would produce for it. -/
structure TNode where
  id : Option String := none
  display_name : Option String := none
  compute_collection_id : Option String := none
  ndi_present : Bool := false          -- "node_deployment_info" in node
  ndi_cc : Option String := none       -- node_deployment_info.compute_collection_id
  statusFetch : Except PyErr NodeStatusData := .ok {}
deriving DecidableEq, Repr

/-- Filter predicate of the verification loop: the node's
`compute_collection_id`, falling back to the nested deployment-info field
when the primary one is falsy (absent or empty), equals the target id. -/
def nodeCcMatches (ccid : String) (n : TNode) : Bool :=
  let c0 := n.compute_collection_id
  let c1 := if (c0 = none || c0 = some "") && n.ndi_present then n.ndi_cc else c0
  c1 == some ccid

/-- Accumulator of the per-node `for` loop inside one verification attempt.
`last` is the Python local `status_data`, which is function-scoped: it keeps
the value assigned by the last successful fetch, across nodes and across
attempts, and starts out unassigned (`none`).  `err` records an exception
escaping the loop body (it aborts the remaining nodes). -/
structure FoldSt where
  all_ready : Bool := true
  failed : List String := []
  preparing : List String := []
  last : Option NodeStatusData := none
  err : Option PyErr := none
deriving DecidableEq, Repr

/-- The status-classification block of the loop body, executed on whatever
`status_data` currently holds.  Mirrors the source: with a deployment status
present, `INSTALL_SUCCESSFUL ∧ UP` is ready, `INSTALL_SUCCESSFUL ∧ ¬UP` is
preparing, a deployment status containing "ERROR" or "FAIL" is failed, and
everything else is preparing; without one, `UP` is ready, `DOWN` is failed,
and `DEGRADED` / `UNKNOWN` / anything else is preparing.  A response without
a `status` field skips the whole block (the node lands in no list). -/
def classifyWith (st : FoldSt) (d : NodeStatusData) (name : String) : FoldSt :=
  match d.status with
  | none => st
  | some s =>
    match d.deployment with
    | some dep =>
      if dep = "INSTALL_SUCCESSFUL" && s = "UP" then st
      else if dep = "INSTALL_SUCCESSFUL" then
        { st with preparing := st.preparing ++ [name], all_ready := false }
      else if containsSub dep.data "ERROR".data || containsSub dep.data "FAIL".data then
        { st with failed := st.failed ++ [name], all_ready := false }
      else
        { st with preparing := st.preparing ++ [name], all_ready := false }
    | none =>
      if s = "UP" then st
      else if s = "DOWN" then
        { st with failed := st.failed ++ [name], all_ready := false }
      else if s = "DEGRADED" then
        { st with preparing := st.preparing ++ [name], all_ready := false }
      else if s = "UNKNOWN" then
        { st with preparing := st.preparing ++ [name], all_ready := false }
      else
        { st with preparing := st.preparing ++ [name], all_ready := false }

/-- One iteration of the per-node `for` loop.  A status-fetch error is caught
and books the node as failed AND preparing — but the body then falls through
(there is no `continue`) into the classification block, which reads the
function-scoped `status_data`: if no fetch has ever succeeded that raises an
UnboundLocalError (whose message, in every CPython version, contains neither
"failed" nor "error"), otherwise it re-classifies the current node against
the STALE data of the previously fetched node. -/
def processNode (st : FoldSt) (n : TNode) : FoldSt :=
  if st.err.isSome then st
  else
    let name := n.display_name.getD "Unknown"
    match n.statusFetch with
    | .error _ =>
      let st1 := { st with failed := st.failed ++ [name],
                           preparing := st.preparing ++ [name], all_ready := false }
      match st1.last with
      | none =>
        { st1 with err := some (.nameError
            "cannot access local variable \x27status_data\x27 where it is not associated with a value") }
      | some d => classifyWith st1 d name
    | .ok d => classifyWith { st with last := some d } d name

/-- What one polling attempt does before the outer `except` gets a say. -/
inductive AttemptOutcome where
  | success
  | retryContinue
  | raised (e : PyErr)
deriving DecidableEq, Repr

/-- One attempt of `verify_nsx_configuration_status` (the body of the outer
`try`): list the transport nodes, filter them to the compute collection,
run the per-node loop, then decide: raise naming the failed nodes, return
success, retry, or — on the last attempt — raise the applicable error. -/
def attemptBody (nodesRes : Except PyErr (List TNode)) (ccid : String)
    (attempt maxA : Nat) (prev : Option NodeStatusData) :
    AttemptOutcome × Option NodeStatusData :=
  match nodesRes with
  | .error e => (.raised e, prev)
  | .ok nodes =>
    let relevant := nodes.filter (nodeCcMatches ccid)
    if relevant.isEmpty then
      if attempt < maxA then (.retryContinue, prev)
      else (.raised (.exn "No transport nodes found for compute collection"), prev)
    else
      let st := relevant.foldl processNode { last := prev }
      match st.err with
      | some e => (.raised e, st.last)
      | none =>
        if !st.failed.isEmpty then
          (.raised (.exn ("Host preparation failed for: " ++
            String.intercalate ", " st.failed)), st.last)
        else if st.all_ready then (.success, st.last)
        else if attempt < maxA then (.retryContinue, st.last)
        else (.raised (.exn "Timeout waiting for host preparation"), st.last)

/-- The `while attempt < max_attempts` loop of
`verify_nsx_configuration_status` with its outer `except` clause: an
exception whose lowered message contains "failed" or "error" is re-raised at
once; any other exception is retried while attempts remain and re-raised on
the last one.  `env a` is what the transport-node listing of attempt `a`
returns (each listed node carrying its per-node status-fetch outcome);
`fuel` counts the remaining attempts. -/
def verifyAux (env : Nat → Except PyErr (List TNode)) (ccid : String) (maxA : Nat) :
    Nat → Nat → Option NodeStatusData → Except PyErr Unit
  | _, 0, _ => .error (.exn "loop exhausted")   -- unreachable: fuel = maxA - attempt + 1
  | attempt, fuel + 1, prev =>
    match attemptBody (env attempt) ccid attempt maxA prev with
    | (.success, _) => .ok ()
    | (.retryContinue, last) => verifyAux env ccid maxA (attempt + 1) fuel last
    | (.raised e, last) =>
      if strInLower "failed" e.str || strInLower "error" e.str then .error e
      else if attempt < maxA then verifyAux env ccid maxA (attempt + 1) fuel last
      else .error e

/-- `verify_nsx_configuration_status`: 60 attempts, starting at attempt 1
with the Python local `status_data` still unassigned. -/
def verify_nsx_configuration_status (env : Nat → Except PyErr (List TNode))
    (ccid : String) : Except PyErr Unit :=
  verifyAux env ccid 60 1 60 none

/-- `thumbprint[i:i+2]` chunking of `range(0, len(thumbprint), 2)`. -/
def chunk2 : List Char → List (List Char)
  | [] => []
  | [a] => [[a]]
  | a :: b :: rest => [a, b] :: chunk2 rest

/-- The formatting step of `get_ssl_thumbprint`:
`":".join(thumbprint[i:i+2].upper() for i in range(0, len(thumbprint), 2))`. -/
def thumbprintGroups (hexdigest : String) : List String :=
  (chunk2 hexdigest.data).map fun p => String.mk (p.map Char.toUpper)

/-- `get_ssl_thumbprint`, with the externals as parameters: the TLS layer
delivers the raw peer certificate bytes `cert`, and `sha256hex` is
`hashlib.sha256(...).hexdigest()` (a 64-character lowercase hexadecimal
rendering of the 256-bit digest — that contract is hypothesised where
needed, not re-implemented). -/
def get_ssl_thumbprint (sha256hex : List Nat → String) (cert : List Nat) : String :=
  String.intercalate ":" (thumbprintGroups (sha256hex cert))

/-! ### Concrete fixtures used by witnesses and counterexamples -/

/-- A status fetch that always reports DOWN. -/
def fetchDown : Nat → Except PyErr (Option String) := fun _ => .ok (some "DOWN")

/-- A stand-in for the remainder of the configuration script. -/
def restFix : Unit → Except PyErr Unit × Nat := fun _ => (.ok (), 7)

/-- A subnet backend whose probe says the subnet does not exist. -/
def subnetBFix : SubnetBackend :=
  { getSubnets := .ok (), probe := .ok false, putSubnet := fun _ => .ok {},
    existingSubnet := {} }

/-- The sixteen lowercase hexadecimal digits (the alphabet of
`hashlib...hexdigest()`). -/
def hexLowerChars : List Char := "0123456789abcdef".data

/-- The sixteen uppercase hexadecimal digits. -/
def hexUpperChars : List Char := "0123456789ABCDEF".data

/-- A concrete stand-in for `hashlib.sha256(...).hexdigest()`. -/
def digestFix : List Nat → String :=
  fun _ => "00112233445566778899aabbccddeeff00112233445566778899aabbccddeeff"

/-- The conflict classification asserted by the specification for create
errors of every resource kind: case-insensitive "already exists" or
"duplicate", or the vendor conflict code 7050 ("compute manager already
registered"). -/
def specRecoverableC2 (m : String) : Bool :=
  strInLower "already exists" m || strInLower "duplicate" m || strIn "7050" m

/-- A compute manager registered for server vcsa.dom. -/
def cmX : Resource := { server := some "vcsa.dom", id := some "cm9" }

/-- Listing script: empty on the first lookup, `cmX` afterwards (a concurrent
writer registered the manager between the lookup and the create). -/
def dupLists : Nat → Except PyErr (List Resource) :=
  fun n => if n = 0 then .ok [] else .ok [cmX]

/-- A create error message carrying a duplicate signature but neither the
"already registered with NSX" text nor any "error_code". -/
def dupMsg : String := "Duplicate compute manager entry"

/-- Listing script that always returns an empty collection. -/
def emptyLists : Nat → Except PyErr (List Resource) := fun _ => .ok []

/-- An IP block as the backend would list it (no path yet). -/
def blkX : Resource := { display_name := some "ip-block-vtep", id := some "b7" }

/-- Listing script: empty on the first lookup, `blkX` afterwards. -/
def blkLists : Nat → Except PyErr (List Resource) :=
  fun n => if n = 0 then .ok [] else .ok [blkX]

/-- A transport-node-profile create response carrying an id but no path. -/
def tnpRaw : Resource := { display_name := some "tnp", id := some "tnp-raw-id" }

/-- An IP-block create response carrying an id but no path. -/
def blkRaw : Resource := { display_name := some "ip-block-vtep", id := some "b1" }

/-- An IP-pool create response carrying an id but no path. -/
def poolRaw : Resource := { display_name := some "ip-pool-vtep", id := some "p1" }

/-- Listing script that always returns `blkRaw`. -/
def blkListsNow : Nat → Except PyErr (List Resource) := fun _ => .ok [blkRaw]

/-- The IP block `wCreate` builds from the script payload in world `w`. -/
def ipbMade (w : World) : Resource :=
  { display_name := some "ip-block-vtep", cidr := some "172.16.20.0/24",
    id := some ("id-" ++ toString w.nextId) }

/-- The IP pool `wCreate` builds from the script payload in world `w`. -/
def ippMade (w : World) : Resource :=
  { display_name := some "ip-pool-vtep", id := some ("id-" ++ toString w.nextId) }

/-- The transport node profile `wCreate` builds in world `w`. -/
def tnpMade (w : World) : Resource :=
  { display_name := some "tnp", id := some ("id-" ++ toString w.nextId) }

/-- The host transport-node collection `wCreate` builds in world `w`. -/
def htncMade (w : World) (ccid tn : String) : Resource :=
  { display_name := some "Host transport node collection",
    compute_collection_id := some ccid, transport_node_profile_id := some tn,
    id := some ("id-" ++ toString w.nextId) }

/-- The compute manager `wCreate` builds for domain `dom` in world `w`. -/
def cmMade (w : World) (dom : String) : Resource :=
  { display_name := some ("vcsa." ++ dom), server := some ("vcsa." ++ dom),
    id := some ("id-" ++ toString w.nextId) }

/-- A stored, already-normalized IP block. -/
def blkStored : Resource :=
  { display_name := some "ip-block-vtep", id := some "b1",
    path := some "/api/v1/pools/ip-blocks/b1" }

/-- A stored, already-normalized IP pool. -/
def poolStored : Resource :=
  { display_name := some "ip-pool-vtep", id := some "p1",
    path := some "/policy/api/v1/infra/ip-pools/p1" }

/-- A stored transport node profile. -/
def tnpStored : Resource := { display_name := some "tnp", id := some "t1" }

/-- A stored host transport-node collection. -/
def htncStored : Resource :=
  { display_name := some "Host transport node collection", id := some "h1" }

/-- A stored compute manager for vcsa.dom. -/
def cmStored : Resource :=
  { display_name := some "vcsa.dom", server := some "vcsa.dom", id := some "c1" }

/-- Three-way per-node classification outcome. -/
inductive NodeClass where
  | ready
  | preparing
  | failed
deriving DecidableEq, Repr

/-- The classification the loop body applies to a successfully fetched
status, extracted from `classifyWith`: with a deployment status,
INSTALL_SUCCESSFUL+UP is ready, INSTALL_SUCCESSFUL otherwise preparing, an
ERROR/FAIL marker failed, anything else preparing; without one, UP is ready,
DOWN failed, anything else preparing; a response without a `status` field is
skipped (counts as ready). -/
def nodeClassOk (d : NodeStatusData) : NodeClass :=
  match d.status with
  | none => .ready
  | some s =>
    match d.deployment with
    | some dep =>
      if dep = "INSTALL_SUCCESSFUL" && s = "UP" then .ready
      else if dep = "INSTALL_SUCCESSFUL" then .preparing
      else if containsSub dep.data "ERROR".data || containsSub dep.data "FAIL".data then
        .failed
      else .preparing
    | none =>
      if s = "UP" then .ready
      else if s = "DOWN" then .failed
      else if s = "DEGRADED" then .preparing
      else if s = "UNKNOWN" then .preparing
      else .preparing

/-- Whether a deployment status carries the ERROR/FAIL marker. -/
def deployMarker (d : NodeStatusData) : Bool :=
  match d.deployment with
  | some dep => containsSub dep.data "ERROR".data || containsSub dep.data "FAIL".data
  | none => false

/-- The per-node classification asserted by the claim: Ready iff deployment
status is install-successful AND connectivity is UP; Failed iff the
deployment status carries an error/fail marker, OR connectivity is DOWN, OR
the status fetch itself errored; Preparing in every other case. -/
def specNodeClassC3 (r : Except PyErr NodeStatusData) : NodeClass :=
  match r with
  | .error _ => .failed
  | .ok d =>
    if d.deployment == some "INSTALL_SUCCESSFUL" && d.status == some "UP" then .ready
    else if deployMarker d || d.status == some "DOWN" then .failed
    else .preparing

/-- Deployment successful but connectivity DOWN. -/
def d0 : NodeStatusData := { status := some "DOWN", deployment := some "INSTALL_SUCCESSFUL" }

/-- Connectivity DOWN, no deployment status. -/
def dDown : NodeStatusData := { status := some "DOWN" }

/-- A ready transport node of collection cc1. -/
def nodeOkT : TNode :=
  { id := some "n2", display_name := some "esx-ok",
    compute_collection_id := some "cc1",
    statusFetch := .ok { status := some "UP", deployment := some "INSTALL_SUCCESSFUL" } }

/-- A transport node of collection cc1 whose status fetch raises. -/
def nodeErrT : TNode :=
  { id := some "n1", display_name := some "esx-err",
    compute_collection_id := some "cc1",
    statusFetch := .error (.exn "connection refused") }

/-- A transport node of collection cc1 that reports DOWN. -/
def nodeFailT : TNode :=
  { id := some "n3", display_name := some "esx-f",
    compute_collection_id := some "cc1", statusFetch := .ok dDown }

/-- Listing for the C5 counterexample: on attempt 1 the node whose fetch
errors, on later attempts a ready node. -/
def env1C5 : Nat → Except PyErr (List TNode) :=
  fun a => if a = 1 then .ok [nodeErrT] else .ok [nodeOkT]

/-- Listing that never contains a transport node. -/
def envEmpty : Nat → Except PyErr (List TNode) := fun _ => .ok []

/-- Listing with a single failing node. -/
def envFail : Nat → Except PyErr (List TNode) := fun _ => .ok [nodeFailT]

/-- Listing with a single ready node. -/
def envReady : Nat → Except PyErr (List TNode) := fun _ => .ok [nodeOkT]

/-- Listing whose GET always raises a message carrying "Error". -/
def envFatal : Nat → Except PyErr (List TNode) :=
  fun _ => .error (.exn "Internal Error")

/-- Listing whose GET always raises a transient message (no "failed", no
"error"). -/
def envTransient : Nat → Except PyErr (List TNode) :=
  fun _ => .error (.exn "connection reset by peer")

/-- Deployment INSTALL_SUCCESSFUL with connectivity UP. -/
def dUp : NodeStatusData := { status := some "UP", deployment := some "INSTALL_SUCCESSFUL" }

/-! ### Helper lemmas -/

theorem ensurePath_idem (pre : String) (r : Resource) :
    ensurePath pre (ensurePath pre r) = ensurePath pre r := by
  unfold ensurePath
  rcases hp : r.path with _ | p <;> rcases hi : r.id with _ | i <;> simp [hp, hi]

theorem find?_append_none {α : Type} (p : α → Bool) (l l' : List α)
    (h : l.find? p = none) : (l ++ l').find? p = l'.find? p := by
  induction l with
  | nil => simp
  | cons a t ih =>
    by_cases hpa : p a = true
    · rw [List.find?_cons_of_pos _ hpa] at h
      exact absurd h (by simp)
    · rw [List.find?_cons_of_neg _ hpa] at h
      rw [List.cons_append, List.find?_cons_of_neg _ hpa]
      exact ih h

theorem find?_none_filter_nil {α : Type} (p : α → Bool) (l : List α)
    (h : l.find? p = none) : l.filter p = [] := by
  rw [List.find?_eq_none] at h
  rw [List.filter_eq_nil_iff]
  exact h

theorem find?_none_any_false {α : Type} (p : α → Bool) (l : List α)
    (h : l.find? p = none) : l.any p = false := by
  rw [List.find?_eq_none] at h
  simp only [List.any_eq_false]
  exact h

theorem find?_none_no_name (dn : String) (l : List Resource)
    (h : l.find? (nameMatches dn) = none) :
    ¬ ∃ x ∈ l, x.display_name = some dn := by
  rintro ⟨x, hx, he⟩
  have hall := List.find?_eq_none.mp h x hx
  simp [nameMatches] at hall
  exact hall he

theorem find?_none_no_server (srv : String) (l : List Resource)
    (h : l.find? (serverMatches srv) = none) :
    ¬ ∃ x ∈ l, x.server = some srv := by
  rintro ⟨x, hx, he⟩
  have hall := List.find?_eq_none.mp h x hx
  simp [serverMatches] at hall
  exact hall he

/-! ### C9 -/

/-- C9: if the setting `ff_component_wait_for_status` is not the string
"true", `execute_config_script` raises a `ValueError` before any request is
issued to the SDN control plane (zero SDN requests), leaving the remote
fabric untouched. -/
theorem C9_ff_gate (setting : String) (rest : Unit → Except PyErr Unit × Nat)
    (h : setting ≠ "true") :
    execute_config_script setting rest =
      (.error (.valueError "ff_component_wait_for_status is not true"), 0) := by
  simp [execute_config_script, h]

theorem C9_ff_gate_witness :
    ("false" ≠ "true") ∧
    execute_config_script "false" restFix =
      (.error (.valueError "ff_component_wait_for_status is not true"), 0) :=
  ⟨by decide, C9_ff_gate "false" restFix (by decide)⟩

/-! ### C6 -/

/-- C6: before the subnet-creation step the orchestrator validates that the
IP-pool and IP-block descriptors carry a path; a pool descriptor without one
raises a descriptive `ValueError` with zero subnet writes issued, and so does
a block descriptor without one. -/
theorem C6_subnet_precondition (ip_pool ip_block : Resource) (B : SubnetBackend) :
    (ip_pool.path = none →
      block_subnet_stage ip_pool ip_block B =
        (.error (.valueError "IP Pool object missing \x27path\x27 key"), 0)) ∧
    (∀ pp, ip_pool.path = some pp → ip_block.path = none →
      block_subnet_stage ip_pool ip_block B =
        (.error (.valueError "IP Block object missing \x27path\x27 key"), 0)) := by
  constructor
  · intro h
    simp [block_subnet_stage, h]
  · intro pp hp hb
    simp [block_subnet_stage, hp, hb]

theorem C6_subnet_precondition_witness :
    (({} : Resource).path = none ∧
      block_subnet_stage {} { path := some "/infra/ip-blocks/b" } subnetBFix =
        (.error (.valueError "IP Pool object missing \x27path\x27 key"), 0)) ∧
    (({ path := some "/infra/ip-pools/p" } : Resource).path = some "/infra/ip-pools/p" ∧
      ({} : Resource).path = none ∧
      block_subnet_stage { path := some "/infra/ip-pools/p" } {} subnetBFix =
        (.error (.valueError "IP Block object missing \x27path\x27 key"), 0)) :=
  ⟨⟨rfl, (C6_subnet_precondition {} { path := some "/infra/ip-blocks/b" } subnetBFix).1 rfl⟩,
   ⟨rfl, rfl, (C6_subnet_precondition { path := some "/infra/ip-pools/p" } {} subnetBFix).2
      "/infra/ip-pools/p" rfl rfl⟩⟩

/-! ### C7 -/

theorem cmFinalCheck_isOk (fetch : Nat → Except PyErr (Option String)) (k : Nat) :
    (cmFinalCheck fetch k).isOk = true := by
  unfold cmFinalCheck
  rcases hf : fetch k with e | st
  · simp only [hf]
    rfl
  · simp only [hf]
    split <;> rfl

theorem cmAux_isOk (fetch : Nat → Except PyErr (Option String)) :
    ∀ fuel t k, (cmAux fetch 120 10 fuel t k).isOk = true := by
  intro fuel
  induction fuel with
  | zero => intro t k; exact cmFinalCheck_isOk fetch k
  | succ f ih =>
    intro t k
    unfold cmAux
    by_cases ht : t < 120
    · rw [if_pos ht]
      rcases hf : fetch k with e | st
      · simp only [hf]
        exact ih (t + 10) (k + 1)
      · simp only [hf]
        split
        · rfl
        · exact ih (t + 10) (k + 1)
    · rw [if_neg ht]
      exact cmFinalCheck_isOk fetch k

theorem cmAux_noUp (fetch : Nat → Except PyErr (Option String)) :
    ∀ fuel k t, t + 10 * fuel = 120 →
      (∀ j, j < fuel → fetch (k + j) ≠ .ok (some "UP")) →
      cmAux fetch 120 10 fuel t k = cmFinalCheck fetch (k + fuel) := by
  intro fuel
  induction fuel with
  | zero => intro k t _ _; simp [cmAux]
  | succ f ih =>
    intro k t ht hno
    have ht' : t < 120 := by omega
    have hrec : cmAux fetch 120 10 f (t + 10) (k + 1) = cmFinalCheck fetch (k + (f + 1)) := by
      have hstep := ih (k + 1) (t + 10) (by omega)
        (fun j hj => by
          have h2 := hno (j + 1) (by omega)
          have e : k + 1 + j = k + (j + 1) := by omega
          rw [e]
          exact h2)
      rw [hstep]
      congr 1
      omega
    unfold cmAux
    rw [if_pos ht']
    rcases hfk : fetch k with e | st
    · simp only [hfk]
      exact hrec
    · have hst : ¬ st = some "UP" := by
        intro hc
        have h0 := hno 0 (by omega)
        rw [Nat.add_zero] at h0
        exact h0 (by rw [hfk, hc])
      simp only [hfk]
      rw [if_neg hst]
      exact hrec

/-- C7: the compute-manager connection-status poll never raises: whatever the
sequence of status fetches does (including raising), the call returns
normally and the orchestrator proceeds to the next step; and when no in-budget
fetch reports "UP" (budget: 12 checks at 10-second intervals within the
120-second timeout), it performs exactly one additional final check — 13
checks in total — and still returns normally whatever that check yields. -/
theorem C7_cm_status_poll (fetch : Nat → Except PyErr (Option String)) :
    (check_compute_manager_status fetch).isOk = true ∧
    cm_status_step fetch = true ∧
    ((∀ k, k < 12 → fetch k ≠ .ok (some "UP")) →
      ∃ b, check_compute_manager_status fetch = .ok ⟨13, b⟩) := by
  refine ⟨cmAux_isOk fetch 12 0 0, ?_, ?_⟩
  · unfold cm_status_step
    rcases h : check_compute_manager_status fetch with e | t <;> simp only [h]
  · intro hno
    have h12 : check_compute_manager_status fetch = cmFinalCheck fetch 12 := by
      unfold check_compute_manager_status
      rw [cmAux_noUp fetch 12 0 0 (by omega) (fun j hj => by simpa using hno j hj)]
    rw [h12]
    unfold cmFinalCheck
    rcases hf : fetch 12 with e | st
    · simp only [hf]
      exact ⟨false, rfl⟩
    · simp only [hf]
      by_cases h : st = some "UP"
      · rw [if_pos h]
        exact ⟨true, rfl⟩
      · rw [if_neg h]
        exact ⟨false, rfl⟩

theorem C7_cm_status_poll_witness :
    (check_compute_manager_status fetchDown).isOk = true ∧
    cm_status_step fetchDown = true ∧
    (∃ b, check_compute_manager_status fetchDown = .ok ⟨13, b⟩) :=
  ⟨(C7_cm_status_poll fetchDown).1, (C7_cm_status_poll fetchDown).2.1,
   (C7_cm_status_poll fetchDown).2.2 (fun k _ => by simp [fetchDown])⟩

/-! ### C8 -/

theorem chunk2_length (n : Nat) :
    ∀ l : List Char, l.length = 2 * n → (chunk2 l).length = n := by
  induction n with
  | zero =>
    intro l hl
    have : l = [] := List.eq_nil_of_length_eq_zero (by omega)
    subst this
    rfl
  | succ m ih =>
    intro l hl
    match l with
    | [] => simp only [List.length_nil] at hl; omega
    | [a] => simp only [List.length_cons, List.length_nil] at hl; omega
    | a :: b :: rest =>
      have hr : rest.length = 2 * m := by
        simp only [List.length_cons] at hl; omega
      show ([a, b] :: chunk2 rest).length = m + 1
      simp [ih rest hr]

theorem chunk2_mem_length (n : Nat) :
    ∀ l : List Char, l.length = 2 * n → ∀ p ∈ chunk2 l, p.length = 2 := by
  induction n with
  | zero =>
    intro l hl p hp
    have : l = [] := List.eq_nil_of_length_eq_zero (by omega)
    subst this
    simp [chunk2] at hp
  | succ m ih =>
    intro l hl p hp
    match l with
    | [] => simp only [List.length_nil] at hl; omega
    | [a] => simp only [List.length_cons, List.length_nil] at hl; omega
    | a :: b :: rest =>
      have hr : rest.length = 2 * m := by
        simp only [List.length_cons] at hl; omega
      rcases List.mem_cons.mp hp with hp | hp
      · subst hp; rfl
      · exact ih rest hr p hp

theorem chunk2_flatten (l : List Char) : (chunk2 l).flatten = l := by
  induction l using chunk2.induct with
  | case1 => rfl
  | case2 a => rfl
  | case3 a b rest ih => simp [chunk2, ih]

theorem toUpper_hexLower (c : Char) (h : c ∈ hexLowerChars) :
    c.toUpper ∈ hexUpperChars := by
  fin_cases h <;> decide

/-- C8: for every certificate byte string, the thumbprint is the colon-join
of exactly 32 groups, each of which is a two-character upper-case hexadecimal
string, and the concatenation of the groups is the upper-cased 256-bit digest
(`sha256hex` being the external SHA-256 hex-digest, assumed to deliver its
documented 64 lowercase hex characters). -/
theorem C8_thumbprint_format (sha256hex : List Nat → String) (cert : List Nat)
    (hlen : (sha256hex cert).length = 64)
    (hhex : ∀ c ∈ (sha256hex cert).data, c ∈ hexLowerChars) :
    get_ssl_thumbprint sha256hex cert =
      String.intercalate ":" (thumbprintGroups (sha256hex cert)) ∧
    (thumbprintGroups (sha256hex cert)).length = 32 ∧
    (∀ g ∈ thumbprintGroups (sha256hex cert),
      g.length = 2 ∧ ∀ c ∈ g.data, c ∈ hexUpperChars) ∧
    ((thumbprintGroups (sha256hex cert)).map String.data).flatten =
      (sha256hex cert).data.map Char.toUpper := by
  have hdlen : (sha256hex cert).data.length = 2 * 32 := hlen
  refine ⟨rfl, ?_, ?_, ?_⟩
  · unfold thumbprintGroups
    rw [List.length_map]
    exact chunk2_length 32 _ hdlen
  · intro g hg
    unfold thumbprintGroups at hg
    rcases List.mem_map.mp hg with ⟨p, hp, rfl⟩
    have hp2 : p.length = 2 := chunk2_mem_length 32 _ hdlen p hp
    constructor
    · show (p.map Char.toUpper).length = 2
      rw [List.length_map]
      exact hp2
    · intro c hc
      rcases List.mem_map.mp hc with ⟨c', hc', rfl⟩
      have hmem : c' ∈ (sha256hex cert).data := by
        rw [← chunk2_flatten (sha256hex cert).data]
        exact List.mem_flatten.mpr ⟨p, hp, hc'⟩
      exact toUpper_hexLower c' (hhex c' hmem)
  · unfold thumbprintGroups
    rw [List.map_map]
    have : (String.data ∘ fun p => String.mk (p.map Char.toUpper)) =
        fun p : List Char => p.map Char.toUpper := rfl
    rw [this, ← List.map_flatten, chunk2_flatten]

theorem C8_thumbprint_format_witness :
    ((digestFix []).length = 64 ∧ ∀ c ∈ (digestFix []).data, c ∈ hexLowerChars) ∧
    ((thumbprintGroups (digestFix [])).length = 32 ∧
      ∀ g ∈ thumbprintGroups (digestFix []),
        g.length = 2 ∧ ∀ c ∈ g.data, c ∈ hexUpperChars) :=
  ⟨⟨by decide, by decide⟩,
   (C8_thumbprint_format digestFix [] (by decide) (by decide)).2.1,
   (C8_thumbprint_format digestFix [] (by decide) (by decide)).2.2.1⟩

/-! ### C2 -/

/-- C2 counterexample: the claim's classification says the message
"Duplicate compute manager entry" is a recoverable conflict (it contains
"duplicate" case-insensitively), and the re-run lookup would find the
existing compute manager `cmX`; yet `create_compute_manager` propagates the
error as fatal without re-running the lookup (one list call only), because
the compute-manager error classification in the code tests only for
"already registered with NSX" and "error_code". -/
theorem C2_counterexample :
    specRecoverableC2 dupMsg = true ∧
    dupLists 1 = .ok [cmX] ∧
    serverMatches "vcsa.dom" cmX = true ∧
    create_compute_manager (seqClient dupLists (.error (.exn dupMsg))) {} "dom" "AA" =
      ({ listCalls := 1, createCalls := 1 }, .error (.exn dupMsg)) := by
  refine ⟨by decide, by decide, by decide, by decide⟩

/-- C2 amended: for IP block, IP pool, transport node profile and host
transport-node collection, a create error is recoverable exactly when its
message case-insensitively contains "already exists" or "duplicate"; for the
compute manager it is recoverable exactly when the message contains
(case-sensitively) "already registered with NSX" or the substring
"error_code" — any error code, not only the already-registered code, and the
duplicate signatures do not apply.  On a recoverable conflict the lookup is
re-run and its result returned when found; any other error, or a recoverable
conflict whose re-run lookup finds nothing, propagates the original error
(fatally, with no re-lookup in the non-recoverable case). -/
theorem C2_amended_classification :
    (∀ (lists : Nat → Except PyErr (List Resource)) (m : String) (l0 : List Resource),
      lists 0 = .ok l0 → l0.find? (nameMatches "ip-block-vtep") = none →
      ((∀ l1 b, (strInLower "already exists" m || strInLower "duplicate" m) = true →
          lists 1 = .ok l1 → l1.find? (nameMatches "ip-block-vtep") = some b →
          create_ip_block (seqClient lists (.error (.exn m))) {} =
            ({ listCalls := 2, createCalls := 1 }, .ok (ensurePath ipBlockPre b))) ∧
       (∀ l1, (strInLower "already exists" m || strInLower "duplicate" m) = true →
          lists 1 = .ok l1 → l1.find? (nameMatches "ip-block-vtep") = none →
          create_ip_block (seqClient lists (.error (.exn m))) {} =
            ({ listCalls := 2, createCalls := 1 }, .error (.exn m))) ∧
       ((strInLower "already exists" m || strInLower "duplicate" m) = false →
          create_ip_block (seqClient lists (.error (.exn m))) {} =
            ({ listCalls := 1, createCalls := 1 }, .error (.exn m))))) ∧
    (∀ (lists : Nat → Except PyErr (List Resource)) (m : String) (l0 : List Resource),
      lists 0 = .ok l0 → l0.find? (nameMatches "ip-pool-vtep") = none →
      ((∀ l1 p, (strInLower "already exists" m || strInLower "duplicate" m) = true →
          lists 1 = .ok l1 → l1.find? (nameMatches "ip-pool-vtep") = some p →
          create_ip_pool (seqClient lists (.error (.exn m))) {} =
            ({ listCalls := 2, createCalls := 1 }, .ok (ensurePath ipPoolPre p))) ∧
       (∀ l1, (strInLower "already exists" m || strInLower "duplicate" m) = true →
          lists 1 = .ok l1 → l1.find? (nameMatches "ip-pool-vtep") = none →
          create_ip_pool (seqClient lists (.error (.exn m))) {} =
            ({ listCalls := 2, createCalls := 1 }, .error (.exn m))) ∧
       ((strInLower "already exists" m || strInLower "duplicate" m) = false →
          create_ip_pool (seqClient lists (.error (.exn m))) {} =
            ({ listCalls := 1, createCalls := 1 }, .error (.exn m))))) ∧
    (∀ (lists : Nat → Except PyErr (List Resource)) (m : String) (l0 : List Resource),
      lists 0 = .ok l0 → l0.find? (nameMatches "tnp") = none →
      ((∀ l1 t, (strInLower "already exists" m || strInLower "duplicate" m) = true →
          lists 1 = .ok l1 → l1.find? (nameMatches "tnp") = some t →
          create_transport_node_profile (seqClient lists (.error (.exn m))) {} =
            ({ listCalls := 2, createCalls := 1 }, .ok t)) ∧
       (∀ l1, (strInLower "already exists" m || strInLower "duplicate" m) = true →
          lists 1 = .ok l1 → l1.find? (nameMatches "tnp") = none →
          create_transport_node_profile (seqClient lists (.error (.exn m))) {} =
            ({ listCalls := 2, createCalls := 1 }, .error (.exn m))) ∧
       ((strInLower "already exists" m || strInLower "duplicate" m) = false →
          create_transport_node_profile (seqClient lists (.error (.exn m))) {} =
            ({ listCalls := 1, createCalls := 1 }, .error (.exn m))))) ∧
    (∀ (lists : Nat → Except PyErr (List Resource)) (m ccid tn : String) (l0 : List Resource),
      lists 0 = .ok l0 →
      l0.find? (nameMatches "Host transport node collection") = none →
      ((∀ l1 h, (strInLower "already exists" m || strInLower "duplicate" m) = true →
          lists 1 = .ok l1 →
          l1.find? (nameMatches "Host transport node collection") = some h →
          create_host_transport_node_collection (seqClient lists (.error (.exn m))) {} ccid tn =
            ({ listCalls := 2, createCalls := 1 }, .ok h)) ∧
       (∀ l1, (strInLower "already exists" m || strInLower "duplicate" m) = true →
          lists 1 = .ok l1 →
          l1.find? (nameMatches "Host transport node collection") = none →
          create_host_transport_node_collection (seqClient lists (.error (.exn m))) {} ccid tn =
            ({ listCalls := 2, createCalls := 1 }, .error (.exn m))) ∧
       ((strInLower "already exists" m || strInLower "duplicate" m) = false →
          create_host_transport_node_collection (seqClient lists (.error (.exn m))) {} ccid tn =
            ({ listCalls := 1, createCalls := 1 }, .error (.exn m))))) ∧
    (∀ (lists : Nat → Except PyErr (List Resource)) (m dom tb : String) (l0 : List Resource),
      lists 0 = .ok l0 → l0.find? (serverMatches ("vcsa." ++ dom)) = none →
      ((∀ l1 cm, (strIn "already registered with NSX" m || strIn "error_code" m) = true →
          lists 1 = .ok l1 → l1.find? (serverMatches ("vcsa." ++ dom)) = some cm →
          create_compute_manager (seqClient lists (.error (.exn m))) {} dom tb =
            ({ listCalls := 2, createCalls := 1 }, .ok cm)) ∧
       (∀ l1, (strIn "already registered with NSX" m || strIn "error_code" m) = true →
          lists 1 = .ok l1 → l1.find? (serverMatches ("vcsa." ++ dom)) = none →
          create_compute_manager (seqClient lists (.error (.exn m))) {} dom tb =
            ({ listCalls := 2, createCalls := 1 }, .error (.exn m))) ∧
       ((strIn "already registered with NSX" m || strIn "error_code" m) = false →
          create_compute_manager (seqClient lists (.error (.exn m))) {} dom tb =
            ({ listCalls := 1, createCalls := 1 }, .error (.exn m))))) := by
  refine ⟨?_, ?_, ?_, ?_, ?_⟩
  · intro lists m l0 h0 hn
    refine ⟨?_, ?_, ?_⟩
    · intro l1 b hrec h1 hf
      simp [create_ip_block, get_existing_ip_block, seqClient, PyErr.str, h0, hn, hrec, h1,
        hf, ensurePath_idem]
    · intro l1 hrec h1 hf
      simp [create_ip_block, get_existing_ip_block, seqClient, PyErr.str, h0, hn, hrec, h1, hf]
    · intro hrec
      simp [create_ip_block, get_existing_ip_block, seqClient, PyErr.str, h0, hn, hrec]
  · intro lists m l0 h0 hn
    refine ⟨?_, ?_, ?_⟩
    · intro l1 p hrec h1 hf
      simp [create_ip_pool, get_existing_ip_pool, seqClient, PyErr.str, h0, hn, hrec, h1, hf]
    · intro l1 hrec h1 hf
      simp [create_ip_pool, get_existing_ip_pool, seqClient, PyErr.str, h0, hn, hrec, h1, hf]
    · intro hrec
      simp [create_ip_pool, get_existing_ip_pool, seqClient, PyErr.str, h0, hn, hrec]
  · intro lists m l0 h0 hn
    refine ⟨?_, ?_, ?_⟩
    · intro l1 t hrec h1 hf
      simp [create_transport_node_profile, get_existing_transport_node_profile,
        seqClient, PyErr.str, h0, hn, hrec, h1, hf]
    · intro l1 hrec h1 hf
      simp [create_transport_node_profile, get_existing_transport_node_profile,
        seqClient, PyErr.str, h0, hn, hrec, h1, hf]
    · intro hrec
      simp [create_transport_node_profile, get_existing_transport_node_profile,
        seqClient, PyErr.str, h0, hn, hrec]
  · intro lists m ccid tn l0 h0 hn
    refine ⟨?_, ?_, ?_⟩
    · intro l1 h hrec h1 hf
      simp [create_host_transport_node_collection,
        get_existing_host_transport_node_collection, seqClient, PyErr.str, h0, hn, hrec, h1, hf]
    · intro l1 hrec h1 hf
      simp [create_host_transport_node_collection,
        get_existing_host_transport_node_collection, seqClient, PyErr.str, h0, hn, hrec, h1, hf]
    · intro hrec
      simp [create_host_transport_node_collection,
        get_existing_host_transport_node_collection, seqClient, PyErr.str, h0, hn, hrec]
  · intro lists m dom tb l0 h0 hn
    refine ⟨?_, ?_, ?_⟩
    · intro l1 cm hrec h1 hf
      simp [create_compute_manager, get_existing_compute_manager, seqClient, PyErr.str,
        h0, hn, hrec, h1, hf]
    · intro l1 hrec h1 hf
      simp [create_compute_manager, get_existing_compute_manager, seqClient, PyErr.str,
        h0, hn, hrec, h1, hf]
    · intro hrec
      simp [create_compute_manager, get_existing_compute_manager, seqClient, PyErr.str,
        h0, hn, hrec]

theorem C2_amended_classification_witness :
    (blkLists 0 = .ok [] ∧
      ([] : List Resource).find? (nameMatches "ip-block-vtep") = none ∧
      (strInLower "already exists" "The object already EXISTS" ||
        strInLower "duplicate" "The object already EXISTS") = true ∧
      blkLists 1 = .ok [blkX] ∧
      [blkX].find? (nameMatches "ip-block-vtep") = some blkX ∧
      create_ip_block (seqClient blkLists (.error (.exn "The object already EXISTS"))) {} =
        ({ listCalls := 2, createCalls := 1 }, .ok (ensurePath ipBlockPre blkX))) ∧
    ((strInLower "already exists" "boom" || strInLower "duplicate" "boom") = false ∧
      create_ip_pool (seqClient emptyLists (.error (.exn "boom"))) {} =
        ({ listCalls := 1, createCalls := 1 }, .error (.exn "boom"))) ∧
    ((strIn "already registered with NSX" "failure error_code 9999" ||
        strIn "error_code" "failure error_code 9999") = true ∧
      create_compute_manager (seqClient emptyLists (.error (.exn "failure error_code 9999"))) {} "dom" "AA" =
        ({ listCalls := 2, createCalls := 1 }, .error (.exn "failure error_code 9999"))) :=
  ⟨⟨by decide, by decide, by decide, by decide, by decide,
    (C2_amended_classification.1 blkLists "The object already EXISTS" [] (by decide)
        (by decide)).1 [blkX] blkX (by decide) (by decide) (by decide)⟩,
   ⟨by decide,
    (C2_amended_classification.2.1 emptyLists "boom" [] (by decide) (by decide)).2.2
      (by decide)⟩,
   ⟨by decide,
    ((C2_amended_classification.2.2.2.2 emptyLists "failure error_code 9999" "dom" "AA" []
        (by decide) (by decide)).2.1) [] (by decide) (by decide) (by decide)⟩⟩

/-! ### C4 -/

/-- C4 counterexample: a transport-node-profile create response that carries
an id but no path is returned by the provisioner with its path still absent —
no kind prefix is prepended — contradicting the claim that every kind's
descriptor gets `path = prefix ++ id` synthesized. -/
theorem C4_counterexample :
    tnpRaw.id = some "tnp-raw-id" ∧
    tnpRaw.path = none ∧
    (create_transport_node_profile (seqClient emptyLists (.ok tnpRaw)) {}).2 =
      .ok tnpRaw := by
  refine ⟨by decide, by decide, by decide⟩

/-- C4 amended: path synthesis (`path = kind prefix ++ id` when the raw
response has an id but no path) is applied to IP-block descriptors (both on
create and on lookup) and to IP-pool descriptors on create; transport node
profile, host transport-node collection and compute manager descriptors are
returned exactly as the backend sent them, with no synthesized path. -/
theorem C4_amended_normalization :
    (∀ (lists : Nat → Except PyErr (List Resource)) (l0 : List Resource) (r : Resource)
        (i : String),
      lists 0 = .ok l0 → l0.find? (nameMatches "ip-block-vtep") = none →
      r.path = none → r.id = some i →
      (create_ip_block (seqClient lists (.ok r)) {}).2 =
        .ok { r with path := some (ipBlockPre ++ i) }) ∧
    (∀ (lists : Nat → Except PyErr (List Resource)) (cres : Except PyErr Resource)
        (l0 : List Resource) (b : Resource) (i : String),
      lists 0 = .ok l0 → l0.find? (nameMatches "ip-block-vtep") = some b →
      b.path = none → b.id = some i →
      (get_existing_ip_block (seqClient lists cres) {} "ip-block-vtep").2 =
        some { b with path := some (ipBlockPre ++ i) }) ∧
    (∀ (lists : Nat → Except PyErr (List Resource)) (l0 : List Resource) (r : Resource)
        (i : String),
      lists 0 = .ok l0 → l0.find? (nameMatches "ip-pool-vtep") = none →
      r.path = none → r.id = some i →
      (create_ip_pool (seqClient lists (.ok r)) {}).2 =
        .ok { r with path := some (ipPoolPre ++ i) }) ∧
    (∀ (lists : Nat → Except PyErr (List Resource)) (l0 : List Resource) (r : Resource),
      lists 0 = .ok l0 → l0.find? (nameMatches "tnp") = none →
      (create_transport_node_profile (seqClient lists (.ok r)) {}).2 = .ok r) ∧
    (∀ (lists : Nat → Except PyErr (List Resource)) (l0 : List Resource) (r : Resource)
        (ccid tn : String),
      lists 0 = .ok l0 →
      l0.find? (nameMatches "Host transport node collection") = none →
      (create_host_transport_node_collection (seqClient lists (.ok r)) {} ccid tn).2 =
        .ok r) ∧
    (∀ (lists : Nat → Except PyErr (List Resource)) (l0 : List Resource) (r : Resource)
        (dom tb : String),
      lists 0 = .ok l0 → l0.find? (serverMatches ("vcsa." ++ dom)) = none →
      (create_compute_manager (seqClient lists (.ok r)) {} dom tb).2 = .ok r) := by
  refine ⟨?_, ?_, ?_, ?_, ?_, ?_⟩
  · intro lists l0 r i h0 hn hp hi
    simp [create_ip_block, get_existing_ip_block, seqClient, h0, hn, ensurePath, hp, hi]
  · intro lists cres l0 b i h0 hf hp hi
    simp [get_existing_ip_block, seqClient, h0, hf, ensurePath, hp, hi]
  · intro lists l0 r i h0 hn hp hi
    simp [create_ip_pool, get_existing_ip_pool, seqClient, h0, hn, ensurePath, hp, hi]
  · intro lists l0 r h0 hn
    simp [create_transport_node_profile, get_existing_transport_node_profile,
      seqClient, h0, hn]
  · intro lists l0 r ccid tn h0 hn
    simp [create_host_transport_node_collection,
      get_existing_host_transport_node_collection, seqClient, h0, hn]
  · intro lists l0 r dom tb h0 hn
    simp [create_compute_manager, get_existing_compute_manager, seqClient, h0, hn]

theorem C4_amended_normalization_witness :
    (emptyLists 0 = .ok [] ∧
      ([] : List Resource).find? (nameMatches "ip-block-vtep") = none ∧
      blkRaw.path = none ∧ blkRaw.id = some "b1" ∧
      (create_ip_block (seqClient emptyLists (.ok blkRaw)) {}).2 =
        .ok { blkRaw with path := some (ipBlockPre ++ "b1") }) ∧
    ([blkRaw].find? (nameMatches "ip-block-vtep") = some blkRaw ∧
      (get_existing_ip_block (seqClient blkListsNow (.ok blkRaw)) {} "ip-block-vtep").2 =
        some { blkRaw with path := some (ipBlockPre ++ "b1") }) ∧
    (poolRaw.path = none ∧ poolRaw.id = some "p1" ∧
      (create_ip_pool (seqClient emptyLists (.ok poolRaw)) {}).2 =
        .ok { poolRaw with path := some (ipPoolPre ++ "p1") }) ∧
    ((create_transport_node_profile (seqClient emptyLists (.ok tnpRaw)) {}).2 =
      .ok tnpRaw) ∧
    ((create_host_transport_node_collection (seqClient emptyLists (.ok tnpRaw)) {}
        "cc-1" "tnp").2 = .ok tnpRaw) ∧
    ((create_compute_manager (seqClient emptyLists (.ok cmX)) {} "dom" "AA").2 =
      .ok cmX) :=
  ⟨⟨rfl, rfl, rfl, rfl,
    C4_amended_normalization.1 emptyLists [] blkRaw "b1" rfl rfl rfl rfl⟩,
   ⟨rfl, C4_amended_normalization.2.1 blkListsNow (.ok blkRaw) [blkRaw] blkRaw "b1"
      rfl rfl rfl rfl⟩,
   ⟨rfl, rfl,
    C4_amended_normalization.2.2.1 emptyLists [] poolRaw "p1" rfl rfl rfl rfl⟩,
   C4_amended_normalization.2.2.2.1 emptyLists [] tnpRaw rfl rfl,
   C4_amended_normalization.2.2.2.2.1 emptyLists [] tnpRaw "cc-1" "tnp" rfl rfl,
   C4_amended_normalization.2.2.2.2.2 emptyLists [] cmX "dom" "AA" rfl rfl⟩

/-! ### C1: per-kind computation lemmas over the reference backend -/

theorem create_ip_block_found (w : World) (b : Resource)
    (hf : w.resources.find? (nameMatches "ip-block-vtep") = some b) :
    create_ip_block (refClient nameKey) w = (w, .ok (ensurePath ipBlockPre b)) := by
  simp [create_ip_block, get_existing_ip_block, refClient, wListOk, hf, ensurePath_idem]

theorem create_ip_block_notfound (w : World)
    (hf : w.resources.find? (nameMatches "ip-block-vtep") = none) :
    create_ip_block (refClient nameKey) w =
      ({ resources := w.resources ++ [ipbMade w], nextId := w.nextId + 1,
         createCalls := w.createCalls + 1 }, .ok (ensurePath ipBlockPre (ipbMade w))) := by
  have hnot := find?_none_no_name _ _ hf
  simp [create_ip_block, get_existing_ip_block, refClient, wListOk, wCreate, nameKey,
    hf, hnot, ipbMade]

theorem create_ip_pool_found (w : World) (p : Resource)
    (hf : w.resources.find? (nameMatches "ip-pool-vtep") = some p) :
    create_ip_pool (refClient nameKey) w = (w, .ok (ensurePath ipPoolPre p)) := by
  simp [create_ip_pool, get_existing_ip_pool, refClient, wListOk, hf]

theorem create_ip_pool_notfound (w : World)
    (hf : w.resources.find? (nameMatches "ip-pool-vtep") = none) :
    create_ip_pool (refClient nameKey) w =
      ({ resources := w.resources ++ [ippMade w], nextId := w.nextId + 1,
         createCalls := w.createCalls + 1 }, .ok (ensurePath ipPoolPre (ippMade w))) := by
  have hnot := find?_none_no_name _ _ hf
  simp [create_ip_pool, get_existing_ip_pool, refClient, wListOk, wCreate, nameKey,
    hf, hnot, ippMade]

theorem create_tnp_found (w : World) (t : Resource)
    (hf : w.resources.find? (nameMatches "tnp") = some t) :
    create_transport_node_profile (refClient nameKey) w = (w, .ok t) := by
  simp [create_transport_node_profile, get_existing_transport_node_profile,
    refClient, wListOk, hf]

theorem create_tnp_notfound (w : World)
    (hf : w.resources.find? (nameMatches "tnp") = none) :
    create_transport_node_profile (refClient nameKey) w =
      ({ resources := w.resources ++ [tnpMade w], nextId := w.nextId + 1,
         createCalls := w.createCalls + 1 }, .ok (tnpMade w)) := by
  have hnot := find?_none_no_name _ _ hf
  simp [create_transport_node_profile, get_existing_transport_node_profile,
    refClient, wListOk, wCreate, nameKey, hf, hnot, tnpMade]

theorem create_htnc_found (w : World) (h : Resource) (ccid tn : String)
    (hf : w.resources.find? (nameMatches "Host transport node collection") = some h) :
    create_host_transport_node_collection (refClient nameKey) w ccid tn = (w, .ok h) := by
  simp [create_host_transport_node_collection,
    get_existing_host_transport_node_collection, refClient, wListOk, hf]

theorem create_htnc_notfound (w : World) (ccid tn : String)
    (hf : w.resources.find? (nameMatches "Host transport node collection") = none) :
    create_host_transport_node_collection (refClient nameKey) w ccid tn =
      ({ resources := w.resources ++ [htncMade w ccid tn], nextId := w.nextId + 1,
         createCalls := w.createCalls + 1 }, .ok (htncMade w ccid tn)) := by
  have hnot := find?_none_no_name _ _ hf
  simp [create_host_transport_node_collection,
    get_existing_host_transport_node_collection, refClient, wListOk, wCreate, nameKey,
    hf, hnot, htncMade]

theorem create_cm_found (w : World) (cm : Resource) (dom tb : String)
    (hf : w.resources.find? (serverMatches ("vcsa." ++ dom)) = some cm) :
    create_compute_manager (refClient serverKey) w dom tb = (w, .ok cm) := by
  simp [create_compute_manager, get_existing_compute_manager, refClient, wListOk, hf]

theorem create_cm_notfound (w : World) (dom tb : String)
    (hf : w.resources.find? (serverMatches ("vcsa." ++ dom)) = none) :
    create_compute_manager (refClient serverKey) w dom tb =
      ({ resources := w.resources ++ [cmMade w dom], nextId := w.nextId + 1,
         createCalls := w.createCalls + 1 }, .ok (cmMade w dom)) := by
  have hnot := find?_none_no_server _ _ hf
  simp [create_compute_manager, get_existing_compute_manager, refClient, wListOk,
    wCreate, serverKey, hf, hnot, cmMade]

theorem find?_append_singleton {α : Type} (p : α → Bool) (l : List α) (x : α)
    (h : l.find? p = none) (hx : p x = true) : (l ++ [x]).find? p = some x := by
  rw [find?_append_none _ _ _ h]
  rw [List.find?_cons_of_pos _ hx]

theorem filter_append_singleton {α : Type} (p : α → Bool) (l : List α) (x : α)
    (h : l.find? p = none) (hx : p x = true) : (l ++ [x]).filter p = [x] := by
  rw [List.filter_append, find?_none_filter_nil _ _ h]
  simp [List.filter, hx]

/-- C1: for each of the five provisioned kinds (compute manager, IP block,
IP pool, transport node profile, host transport-node collection), against the
reference backend: (a) when the preceding lookup finds a resource, the
create-or-get operation returns that resource unchanged with the backend
state untouched — in particular no create call is issued; and (b) from any
state, running the operation twice yields the same descriptor `d` both times,
the second run leaves the state unchanged (its create-call counter included),
the number of stored resources matching the kind's key never exceeds
max 1 ⟨initial count⟩ (no duplicate is created), and the first run issues at
most one create call. -/
theorem C1_create_or_get_idempotent :
    (∀ (w : World) (r : Resource),
      get_existing_ip_block (refClient nameKey) w "ip-block-vtep" = (w, some r) →
      create_ip_block (refClient nameKey) w = (w, .ok r)) ∧
    (∀ w : World, ∃ (d : Resource) (w1 : World),
      create_ip_block (refClient nameKey) w = (w1, .ok d) ∧
      create_ip_block (refClient nameKey) w1 = (w1, .ok d) ∧
      (w1.resources.filter (nameMatches "ip-block-vtep")).length ≤
        max 1 (w.resources.filter (nameMatches "ip-block-vtep")).length ∧
      w1.createCalls ≤ w.createCalls + 1) ∧
    (∀ (w : World) (r : Resource),
      get_existing_ip_pool (refClient nameKey) w "ip-pool-vtep" = (w, some r) →
      create_ip_pool (refClient nameKey) w = (w, .ok r)) ∧
    (∀ w : World, ∃ (d : Resource) (w1 : World),
      create_ip_pool (refClient nameKey) w = (w1, .ok d) ∧
      create_ip_pool (refClient nameKey) w1 = (w1, .ok d) ∧
      (w1.resources.filter (nameMatches "ip-pool-vtep")).length ≤
        max 1 (w.resources.filter (nameMatches "ip-pool-vtep")).length ∧
      w1.createCalls ≤ w.createCalls + 1) ∧
    (∀ (w : World) (r : Resource),
      get_existing_transport_node_profile (refClient nameKey) w "tnp" = (w, some r) →
      create_transport_node_profile (refClient nameKey) w = (w, .ok r)) ∧
    (∀ w : World, ∃ (d : Resource) (w1 : World),
      create_transport_node_profile (refClient nameKey) w = (w1, .ok d) ∧
      create_transport_node_profile (refClient nameKey) w1 = (w1, .ok d) ∧
      (w1.resources.filter (nameMatches "tnp")).length ≤
        max 1 (w.resources.filter (nameMatches "tnp")).length ∧
      w1.createCalls ≤ w.createCalls + 1) ∧
    (∀ (w : World) (r : Resource) (ccid tn : String),
      get_existing_host_transport_node_collection (refClient nameKey) w
        "Host transport node collection" = (w, some r) →
      create_host_transport_node_collection (refClient nameKey) w ccid tn = (w, .ok r)) ∧
    (∀ (w : World) (ccid tn : String), ∃ (d : Resource) (w1 : World),
      create_host_transport_node_collection (refClient nameKey) w ccid tn = (w1, .ok d) ∧
      create_host_transport_node_collection (refClient nameKey) w1 ccid tn = (w1, .ok d) ∧
      (w1.resources.filter (nameMatches "Host transport node collection")).length ≤
        max 1 (w.resources.filter (nameMatches "Host transport node collection")).length ∧
      w1.createCalls ≤ w.createCalls + 1) ∧
    (∀ (w : World) (r : Resource) (dom tb : String),
      get_existing_compute_manager (refClient serverKey) w ("vcsa." ++ dom) = (w, some r) →
      create_compute_manager (refClient serverKey) w dom tb = (w, .ok r)) ∧
    (∀ (w : World) (dom tb : String), ∃ (d : Resource) (w1 : World),
      create_compute_manager (refClient serverKey) w dom tb = (w1, .ok d) ∧
      create_compute_manager (refClient serverKey) w1 dom tb = (w1, .ok d) ∧
      (w1.resources.filter (serverMatches ("vcsa." ++ dom))).length ≤
        max 1 (w.resources.filter (serverMatches ("vcsa." ++ dom))).length ∧
      w1.createCalls ≤ w.createCalls + 1) := by
  refine ⟨?_, ?_, ?_, ?_, ?_, ?_, ?_, ?_, ?_, ?_⟩
  · intro w r h
    rcases hf : w.resources.find? (nameMatches "ip-block-vtep") with _ | b
    · simp [get_existing_ip_block, refClient, wListOk, hf] at h
    · simp [get_existing_ip_block, refClient, wListOk, hf] at h
      rw [create_ip_block_found w b hf, h]
  · intro w
    rcases hf : w.resources.find? (nameMatches "ip-block-vtep") with _ | b
    · have hx : nameMatches "ip-block-vtep" (ipbMade w) = true := by
        simp [nameMatches, ipbMade]
      refine ⟨ensurePath ipBlockPre (ipbMade w), _, create_ip_block_notfound w hf,
        create_ip_block_found _ (ipbMade w) (find?_append_singleton _ _ _ hf hx),
        ?_, Nat.le_refl _⟩
      show ((w.resources ++ [ipbMade w]).filter (nameMatches "ip-block-vtep")).length ≤ _
      rw [filter_append_singleton _ _ _ hf hx]
      exact Nat.le_max_left 1 _
    · exact ⟨ensurePath ipBlockPre b, w, create_ip_block_found w b hf,
        create_ip_block_found w b hf, Nat.le_max_right 1 _, Nat.le_succ _⟩
  · intro w r h
    rcases hf : w.resources.find? (nameMatches "ip-pool-vtep") with _ | p
    · simp [get_existing_ip_pool, refClient, wListOk, hf] at h
    · simp [get_existing_ip_pool, refClient, wListOk, hf] at h
      rw [create_ip_pool_found w p hf, h]
  · intro w
    rcases hf : w.resources.find? (nameMatches "ip-pool-vtep") with _ | p
    · have hx : nameMatches "ip-pool-vtep" (ippMade w) = true := by
        simp [nameMatches, ippMade]
      refine ⟨ensurePath ipPoolPre (ippMade w), _, create_ip_pool_notfound w hf,
        create_ip_pool_found _ (ippMade w) (find?_append_singleton _ _ _ hf hx),
        ?_, Nat.le_refl _⟩
      show ((w.resources ++ [ippMade w]).filter (nameMatches "ip-pool-vtep")).length ≤ _
      rw [filter_append_singleton _ _ _ hf hx]
      exact Nat.le_max_left 1 _
    · exact ⟨ensurePath ipPoolPre p, w, create_ip_pool_found w p hf,
        create_ip_pool_found w p hf, Nat.le_max_right 1 _, Nat.le_succ _⟩
  · intro w r h
    rcases hf : w.resources.find? (nameMatches "tnp") with _ | t
    · simp [get_existing_transport_node_profile, refClient, wListOk, hf] at h
    · simp [get_existing_transport_node_profile, refClient, wListOk, hf] at h
      rw [create_tnp_found w t hf, h]
  · intro w
    rcases hf : w.resources.find? (nameMatches "tnp") with _ | t
    · have hx : nameMatches "tnp" (tnpMade w) = true := by
        simp [nameMatches, tnpMade]
      refine ⟨tnpMade w, _, create_tnp_notfound w hf,
        create_tnp_found _ (tnpMade w) (find?_append_singleton _ _ _ hf hx),
        ?_, Nat.le_refl _⟩
      show ((w.resources ++ [tnpMade w]).filter (nameMatches "tnp")).length ≤ _
      rw [filter_append_singleton _ _ _ hf hx]
      exact Nat.le_max_left 1 _
    · exact ⟨t, w, create_tnp_found w t hf, create_tnp_found w t hf,
        Nat.le_max_right 1 _, Nat.le_succ _⟩
  · intro w r ccid tn h
    rcases hf : w.resources.find? (nameMatches "Host transport node collection") with _ | x
    · simp [get_existing_host_transport_node_collection, refClient, wListOk, hf] at h
    · simp [get_existing_host_transport_node_collection, refClient, wListOk, hf] at h
      rw [create_htnc_found w x ccid tn hf, h]
  · intro w ccid tn
    rcases hf : w.resources.find? (nameMatches "Host transport node collection") with _ | x
    · have hx : nameMatches "Host transport node collection" (htncMade w ccid tn) = true := by
        simp [nameMatches, htncMade]
      refine ⟨htncMade w ccid tn, _, create_htnc_notfound w ccid tn hf,
        create_htnc_found _ (htncMade w ccid tn) ccid tn (find?_append_singleton _ _ _ hf hx),
        ?_, Nat.le_refl _⟩
      show ((w.resources ++ [htncMade w ccid tn]).filter
        (nameMatches "Host transport node collection")).length ≤ _
      rw [filter_append_singleton _ _ _ hf hx]
      exact Nat.le_max_left 1 _
    · exact ⟨x, w, create_htnc_found w x ccid tn hf, create_htnc_found w x ccid tn hf,
        Nat.le_max_right 1 _, Nat.le_succ _⟩
  · intro w r dom tb h
    rcases hf : w.resources.find? (serverMatches ("vcsa." ++ dom)) with _ | cm
    · simp [get_existing_compute_manager, refClient, wListOk, hf] at h
    · simp [get_existing_compute_manager, refClient, wListOk, hf] at h
      rw [create_cm_found w cm dom tb hf, h]
  · intro w dom tb
    rcases hf : w.resources.find? (serverMatches ("vcsa." ++ dom)) with _ | cm
    · have hx : serverMatches ("vcsa." ++ dom) (cmMade w dom) = true := by
        simp [serverMatches, cmMade]
      refine ⟨cmMade w dom, _, create_cm_notfound w dom tb hf,
        create_cm_found _ (cmMade w dom) dom tb (find?_append_singleton _ _ _ hf hx),
        ?_, Nat.le_refl _⟩
      show ((w.resources ++ [cmMade w dom]).filter (serverMatches ("vcsa." ++ dom))).length ≤ _
      rw [filter_append_singleton _ _ _ hf hx]
      exact Nat.le_max_left 1 _
    · exact ⟨cm, w, create_cm_found w cm dom tb hf, create_cm_found w cm dom tb hf,
        Nat.le_max_right 1 _, Nat.le_succ _⟩

theorem C1_create_or_get_idempotent_witness :
    (get_existing_ip_block (refClient nameKey) { resources := [blkStored] }
        "ip-block-vtep" = ({ resources := [blkStored] }, some blkStored) ∧
      create_ip_block (refClient nameKey) { resources := [blkStored] } =
        ({ resources := [blkStored] }, .ok blkStored)) ∧
    (get_existing_ip_pool (refClient nameKey) { resources := [poolStored] }
        "ip-pool-vtep" = ({ resources := [poolStored] }, some poolStored) ∧
      create_ip_pool (refClient nameKey) { resources := [poolStored] } =
        ({ resources := [poolStored] }, .ok poolStored)) ∧
    (get_existing_transport_node_profile (refClient nameKey) { resources := [tnpStored] }
        "tnp" = ({ resources := [tnpStored] }, some tnpStored) ∧
      create_transport_node_profile (refClient nameKey) { resources := [tnpStored] } =
        ({ resources := [tnpStored] }, .ok tnpStored)) ∧
    (get_existing_host_transport_node_collection (refClient nameKey)
        { resources := [htncStored] } "Host transport node collection" =
        ({ resources := [htncStored] }, some htncStored) ∧
      create_host_transport_node_collection (refClient nameKey)
        { resources := [htncStored] } "cc-1" "tnp-uid" =
        ({ resources := [htncStored] }, .ok htncStored)) ∧
    (get_existing_compute_manager (refClient serverKey) { resources := [cmStored] }
        ("vcsa." ++ "dom") = ({ resources := [cmStored] }, some cmStored) ∧
      create_compute_manager (refClient serverKey) { resources := [cmStored] }
        "dom" "AA:BB" = ({ resources := [cmStored] }, .ok cmStored)) :=
  ⟨⟨by decide, C1_create_or_get_idempotent.1 { resources := [blkStored] } blkStored
      (by decide)⟩,
   ⟨by decide, C1_create_or_get_idempotent.2.2.1 { resources := [poolStored] } poolStored
      (by decide)⟩,
   ⟨by decide, C1_create_or_get_idempotent.2.2.2.2.1 { resources := [tnpStored] } tnpStored
      (by decide)⟩,
   ⟨by decide, C1_create_or_get_idempotent.2.2.2.2.2.2.1 { resources := [htncStored] }
      htncStored "cc-1" "tnp-uid" (by decide)⟩,
   ⟨by decide, C1_create_or_get_idempotent.2.2.2.2.2.2.2.2.1 { resources := [cmStored] }
      cmStored "dom" "AA:BB" (by decide)⟩⟩

/-! ### C3 -/

theorem prefixOf_append (n : List Char) :
    ∀ l m : List Char, prefixOf n l = true → prefixOf n (l ++ m) = true := by
  induction n with
  | nil => intro l m _; rfl
  | cons a as ih =>
    intro l m h
    cases l with
    | nil => simp [prefixOf] at h
    | cons b bs =>
      simp only [prefixOf, Bool.and_eq_true, beq_iff_eq] at h
      simp only [List.cons_append, prefixOf, Bool.and_eq_true, beq_iff_eq]
      exact ⟨h.1, ih bs m h.2⟩

theorem containsSub_nil_needle : ∀ m : List Char, containsSub m [] = true := by
  intro m
  cases m with
  | nil => rfl
  | cons a t => simp [containsSub, prefixOf]

theorem containsSub_append_left (n : List Char) :
    ∀ l m : List Char, containsSub l n = true → containsSub (l ++ m) n = true := by
  intro l
  induction l with
  | nil =>
    intro m h
    simp only [containsSub, List.isEmpty_iff] at h
    subst h
    exact containsSub_nil_needle m
  | cons a t ih =>
    intro m h
    simp only [containsSub, Bool.or_eq_true] at h
    rcases h with h | h
    · simp only [List.cons_append, containsSub, Bool.or_eq_true]
      exact Or.inl (prefixOf_append n (a :: t) m h)
    · simp only [List.cons_append, containsSub, Bool.or_eq_true]
      exact Or.inr (ih m h)

theorem strInLower_append_left (sub s t : String) (h : strInLower sub s = true) :
    strInLower sub (s ++ t) = true := by
  unfold strInLower lowerStr at h ⊢
  rw [String.data_append, List.map_append]
  exact containsSub_append_left _ _ _ h

theorem classifyWith_eq (st : FoldSt) (d : NodeStatusData) (name : String) :
    classifyWith st d name =
      { st with
        failed := st.failed ++ (if nodeClassOk d = .failed then [name] else []),
        preparing := st.preparing ++ (if nodeClassOk d = .preparing then [name] else []),
        all_ready := st.all_ready && (nodeClassOk d == .ready) } := by
  unfold classifyWith nodeClassOk
  rcases hs : d.status with _ | s
  · simp
  · rcases hd : d.deployment with _ | dep
    · by_cases h1 : s = "UP"
      · simp [h1]
      · by_cases h2 : s = "DOWN"
        · simp [h1, h2]
        · by_cases h3 : s = "DEGRADED"
          · simp [h1, h2, h3]
          · by_cases h4 : s = "UNKNOWN" <;> simp [h1, h2, h3, h4]
    · by_cases h1 : dep = "INSTALL_SUCCESSFUL" && s = "UP"
      · simp [h1]
      · by_cases h2 : dep = "INSTALL_SUCCESSFUL"
        · have hsu : ¬ s = "UP" := by
            intro hx
            exact h1 (by simp [h2, hx])
          simp [h1, h2, hsu]
        · by_cases h3 : (containsSub dep.data "ERROR".data ||
              containsSub dep.data "FAIL".data) = true
          · simp [h1, h2, h3]
          · simp [h1, h2, h3]

theorem processNode_ok (st : FoldSt) (n : TNode) (d : NodeStatusData) (name : String)
    (he : st.err = none) (hf : n.statusFetch = .ok d) (hn : n.display_name = some name) :
    processNode st n =
      { st with
        last := some d,
        failed := st.failed ++ (if nodeClassOk d = .failed then [name] else []),
        preparing := st.preparing ++ (if nodeClassOk d = .preparing then [name] else []),
        all_ready := st.all_ready && (nodeClassOk d == .ready) } := by
  unfold processNode
  simp [he, hf, hn, classifyWith_eq]

theorem processNode_err_failed (st : FoldSt) (n : TNode) (e : PyErr) (name : String)
    (he : st.err = none) (hf : n.statusFetch = .error e) (hn : n.display_name = some name) :
    name ∈ (processNode st n).failed := by
  unfold processNode
  rcases hl : st.last with _ | d
  · simp [he, hf, hn, hl]
  · simp [he, hf, hn, hl, classifyWith_eq]

theorem nodeClassOk_iff (d : NodeStatusData) :
    (nodeClassOk d = .ready ↔ d.status = none ∨
      (d.status = some "UP" ∧
        (d.deployment = none ∨ d.deployment = some "INSTALL_SUCCESSFUL"))) ∧
    (nodeClassOk d = .failed ↔ (d.status ≠ none ∧ deployMarker d = true) ∨
      (d.status = some "DOWN" ∧ d.deployment = none)) ∧
    (nodeClassOk d = .preparing ↔
      ¬(d.status = none ∨ (d.status = some "UP" ∧
        (d.deployment = none ∨ d.deployment = some "INSTALL_SUCCESSFUL"))) ∧
      ¬((d.status ≠ none ∧ deployMarker d = true) ∨
        (d.status = some "DOWN" ∧ d.deployment = none))) := by
  have hm1 : containsSub "INSTALL_SUCCESSFUL".data "ERROR".data = false := by decide
  have hm2 : containsSub "INSTALL_SUCCESSFUL".data "FAIL".data = false := by decide
  rcases hs : d.status with _ | s
  · simp [nodeClassOk, hs]
  · rcases hd : d.deployment with _ | dep
    · by_cases h1 : s = "UP"
      · simp [nodeClassOk, deployMarker, hs, hd, h1]
      · by_cases h2 : s = "DOWN"
        · simp [nodeClassOk, deployMarker, hs, hd, h1, h2]
        · by_cases h3 : s = "DEGRADED"
          · simp [nodeClassOk, deployMarker, hs, hd, h1, h2, h3]
          · by_cases h4 : s = "UNKNOWN" <;>
              simp [nodeClassOk, deployMarker, hs, hd, h1, h2, h3, h4]
    · by_cases h1 : dep = "INSTALL_SUCCESSFUL"
      · subst h1
        by_cases h2 : s = "UP"
        · simp [nodeClassOk, deployMarker, hs, hd, h2, hm1, hm2]
        · simp [nodeClassOk, deployMarker, hs, hd, h2, hm1, hm2]
      · by_cases h3 : (containsSub dep.data "ERROR".data ||
            containsSub dep.data "FAIL".data) = true
        · by_cases h2 : s = "UP" <;>
            simp [nodeClassOk, deployMarker, hs, hd, h1, h2, h3]
        · by_cases h2 : s = "UP" <;>
            simp [nodeClassOk, deployMarker, hs, hd, h1, h2, h3]

/-- C3 counterexample: a node whose deployment status is INSTALL_SUCCESSFUL
and whose connectivity status is DOWN.  The claim classifies it as Failed
(connectivity DOWN), but the loop books it as Preparing (the
INSTALL_SUCCESSFUL-but-not-UP branch fires before any DOWN check, which only
exists in the no-deployment-status fallback). -/
theorem C3_counterexample :
    specNodeClassC3 (.ok d0) = .failed ∧
    nodeClassOk d0 = .preparing ∧
    processNode {}
      { display_name := some "esx-1", compute_collection_id := some "cc1",
        statusFetch := .ok d0 } =
      { all_ready := false, preparing := ["esx-1"], last := some d0 } := by
  decide

/-- C3 amended: for a node whose status fetch succeeds, the loop body appends
the node to the failed list iff the deployment status is present and carries
an "ERROR"/"FAIL" marker, or the connectivity status is "DOWN" with no
deployment status present; it leaves the node unlisted (ready) iff the
status field is absent, or connectivity is "UP" with the deployment status
either absent or INSTALL_SUCCESSFUL; every other case is preparing.  In
particular INSTALL_SUCCESSFUL + DOWN is preparing, not failed, and a missing
status field counts as ready rather than preparing.  A node whose status
fetch errors is always appended to the failed list (alongside the preparing
list). -/
theorem C3_amended_classification :
    (∀ (st : FoldSt) (n : TNode) (d : NodeStatusData) (name : String),
      st.err = none → n.statusFetch = .ok d → n.display_name = some name →
      processNode st n =
        { st with
          last := some d,
          failed := st.failed ++ (if nodeClassOk d = .failed then [name] else []),
          preparing := st.preparing ++ (if nodeClassOk d = .preparing then [name] else []),
          all_ready := st.all_ready && (nodeClassOk d == .ready) }) ∧
    (∀ d : NodeStatusData,
      (nodeClassOk d = .ready ↔ d.status = none ∨
        (d.status = some "UP" ∧
          (d.deployment = none ∨ d.deployment = some "INSTALL_SUCCESSFUL"))) ∧
      (nodeClassOk d = .failed ↔ (d.status ≠ none ∧ deployMarker d = true) ∨
        (d.status = some "DOWN" ∧ d.deployment = none)) ∧
      (nodeClassOk d = .preparing ↔
        ¬(d.status = none ∨ (d.status = some "UP" ∧
          (d.deployment = none ∨ d.deployment = some "INSTALL_SUCCESSFUL"))) ∧
        ¬((d.status ≠ none ∧ deployMarker d = true) ∨
          (d.status = some "DOWN" ∧ d.deployment = none)))) ∧
    (∀ (st : FoldSt) (n : TNode) (e : PyErr) (name : String),
      st.err = none → n.statusFetch = .error e → n.display_name = some name →
      name ∈ (processNode st n).failed) :=
  ⟨processNode_ok, nodeClassOk_iff, processNode_err_failed⟩

theorem C3_amended_classification_witness :
    (({} : FoldSt).err = none ∧ nodeOkT.statusFetch = .ok dUp ∧
      nodeOkT.display_name = some "esx-ok" ∧
      processNode {} nodeOkT = ({ last := some dUp } : FoldSt)) ∧
    (nodeErrT.statusFetch = .error (.exn "connection refused") ∧
      "esx-err" ∈ (processNode {} nodeErrT).failed) := by
  refine ⟨⟨rfl, rfl, rfl, ?_⟩, rfl, ?_⟩
  · rw [C3_amended_classification.1 {} nodeOkT dUp "esx-ok" rfl rfl rfl]
    decide
  · exact C3_amended_classification.2.2 {} nodeErrT (.exn "connection refused")
      "esx-err" rfl rfl rfl

/-! ### C5 and C10 -/

theorem isEmpty_false_of_ne_nil {α : Type} (l : List α) (h : l ≠ []) :
    l.isEmpty = false := by
  cases l with
  | nil => exact absurd rfl h
  | cons a t => rfl

theorem attemptBody_empty (l : List TNode) (ccid : String) (attempt maxA : Nat)
    (prev : Option NodeStatusData) (hfil : l.filter (nodeCcMatches ccid) = []) :
    attemptBody (.ok l) ccid attempt maxA prev =
      if attempt < maxA then (.retryContinue, prev)
      else (.raised (.exn "No transport nodes found for compute collection"), prev) := by
  simp [attemptBody, hfil]

theorem attemptBody_nonempty (l : List TNode) (ccid : String) (attempt maxA : Nat)
    (prev : Option NodeStatusData) (st : FoldSt)
    (hne : l.filter (nodeCcMatches ccid) ≠ [])
    (hst : (l.filter (nodeCcMatches ccid)).foldl processNode { last := prev } = st)
    (he : st.err = none) :
    attemptBody (.ok l) ccid attempt maxA prev =
      (if !st.failed.isEmpty then
        (.raised (.exn ("Host preparation failed for: " ++
          String.intercalate ", " st.failed)), st.last)
      else if st.all_ready then (.success, st.last)
      else if attempt < maxA then (.retryContinue, st.last)
      else (.raised (.exn "Timeout waiting for host preparation"), st.last)) := by
  have hie := isEmpty_false_of_ne_nil _ hne
  simp [attemptBody, hie, hst, he]

theorem verifyAux_empty (env : Nat → Except PyErr (List TNode)) (ccid : String) :
    ∀ fuel attempt prev, attempt + fuel = 61 → 1 ≤ fuel →
      (∀ a, attempt ≤ a → a ≤ 60 →
        ∃ l, env a = .ok l ∧ l.filter (nodeCcMatches ccid) = []) →
      verifyAux env ccid 60 attempt fuel prev =
        .error (.exn "No transport nodes found for compute collection") := by
  intro fuel
  induction fuel with
  | zero => intro attempt prev h1 h2 _; omega
  | succ f ih =>
    intro attempt prev hsum _ henv
    obtain ⟨l, hl, hfil⟩ := henv attempt (Nat.le_refl _) (by omega)
    unfold verifyAux
    rw [hl, attemptBody_empty l ccid attempt 60 prev hfil]
    by_cases hlt : attempt < 60
    · rw [if_pos hlt]
      exact ih (attempt + 1) prev (by omega) (by omega)
        (fun a ha h60 => henv a (by omega) h60)
    · rw [if_neg hlt]
      have hcls : (strInLower "failed"
          (PyErr.exn "No transport nodes found for compute collection").str ||
          strInLower "error"
          (PyErr.exn "No transport nodes found for compute collection").str) = false := by
        decide
      simp [hcls, hlt]

theorem verifyAux_listing_error (env : Nat → Except PyErr (List TNode)) (ccid : String)
    (e : Nat → PyErr) :
    ∀ fuel attempt prev, attempt + fuel = 61 → 1 ≤ fuel →
      (∀ a, attempt ≤ a → a ≤ 60 → env a = .error (e a) ∧
        (strInLower "failed" (e a).str || strInLower "error" (e a).str) = false) →
      verifyAux env ccid 60 attempt fuel prev = .error (e 60) := by
  intro fuel
  induction fuel with
  | zero => intro attempt prev h1 h2 _; omega
  | succ f ih =>
    intro attempt prev hsum _ henv
    obtain ⟨hl, hcls⟩ := henv attempt (Nat.le_refl _) (by omega)
    unfold verifyAux
    rw [hl]
    show (if (strInLower "failed" (e attempt).str ||
        strInLower "error" (e attempt).str) = true then Except.error (e attempt)
      else if attempt < 60 then verifyAux env ccid 60 (attempt + 1) f prev
      else Except.error (e attempt)) = Except.error (e 60)
    rw [if_neg (by simp [hcls])]
    by_cases hlt : attempt < 60
    · rw [if_pos hlt]
      exact ih (attempt + 1) prev (by omega) (by omega)
        (fun a ha h60 => henv a (by omega) h60)
    · rw [if_neg hlt]
      have h60 : attempt = 60 := by omega
      rw [h60]

/-- C5 counterexample: on attempt 1 the only filtered node's status fetch
errors — the claim classifies it Failed and demands an immediate fatal abort
naming it.  The loop does put it in the failed list, but the body then falls
through into the classification block with the never-assigned `status_data`
local, and the resulting internal error (whose message contains neither
"failed" nor "error") is retried as transient: attempt 2 finds a ready node
and the poll SUCCEEDS. -/
theorem C5_counterexample :
    specNodeClassC3 nodeErrT.statusFetch = .failed ∧
    [nodeErrT].filter (nodeCcMatches "cc1") = [nodeErrT] ∧
    ([nodeErrT].foldl processNode {}).failed = ["esx-err"] ∧
    env1C5 1 = .ok [nodeErrT] ∧
    verify_nsx_configuration_status env1C5 "cc1" = .ok () := by
  decide

/-- C5 amended: (empty) if every attempt's listing succeeds with an empty
filtered set, the poll retries the full 60-attempt budget and then fails with
the "no nodes found" error; (failed) if on the attempt reached the filtered
set is nonempty and the per-node loop completes (no unbound-status_data
internal error) with a nonempty failed list, the poll aborts on that attempt
— regardless of remaining budget — with a fatal error naming every failed
node; (ready) if it completes with an empty failed list and every node ready,
the poll succeeds immediately.  (When a fetch error occurs before any status
fetch of the run has succeeded, the attempt instead dies with an internal
error that is retried as transient — see the counterexample.) -/
theorem C5_amended_termination :
    (∀ (env : Nat → Except PyErr (List TNode)) (ccid : String),
      (∀ a, 1 ≤ a → a ≤ 60 →
        ∃ l, env a = .ok l ∧ l.filter (nodeCcMatches ccid) = []) →
      verify_nsx_configuration_status env ccid =
        .error (.exn "No transport nodes found for compute collection")) ∧
    (∀ (env : Nat → Except PyErr (List TNode)) (ccid : String) (attempt fuel : Nat)
        (prev : Option NodeStatusData) (l : List TNode) (st : FoldSt),
      env attempt = .ok l → l.filter (nodeCcMatches ccid) ≠ [] →
      (l.filter (nodeCcMatches ccid)).foldl processNode { last := prev } = st →
      st.err = none → st.failed ≠ [] →
      verifyAux env ccid 60 attempt (fuel + 1) prev =
        .error (.exn ("Host preparation failed for: " ++
          String.intercalate ", " st.failed))) ∧
    (∀ (env : Nat → Except PyErr (List TNode)) (ccid : String) (attempt fuel : Nat)
        (prev : Option NodeStatusData) (l : List TNode) (st : FoldSt),
      env attempt = .ok l → l.filter (nodeCcMatches ccid) ≠ [] →
      (l.filter (nodeCcMatches ccid)).foldl processNode { last := prev } = st →
      st.err = none → st.failed = [] → st.all_ready = true →
      verifyAux env ccid 60 attempt (fuel + 1) prev = .ok ()) := by
  refine ⟨?_, ?_, ?_⟩
  · intro env ccid henv
    exact verifyAux_empty env ccid 60 1 none (by omega) (by omega) henv
  · intro env ccid attempt fuel prev l st hl hne hst he hfail
    unfold verifyAux
    rw [hl, attemptBody_nonempty l ccid attempt 60 prev st hne hst he]
    rw [if_pos (by simp [isEmpty_false_of_ne_nil _ hfail])]
    have hmsg : strInLower "failed" ("Host preparation failed for: " ++
        String.intercalate ", " st.failed) = true :=
      strInLower_append_left "failed" "Host preparation failed for: " _ (by decide)
    show (if (strInLower "failed" ("Host preparation failed for: " ++
        String.intercalate ", " st.failed) ||
        strInLower "error" ("Host preparation failed for: " ++
        String.intercalate ", " st.failed)) = true then _ else _) = _
    rw [if_pos (by simp [hmsg])]
  · intro env ccid attempt fuel prev l st hl hne hst he hfail hready
    unfold verifyAux
    rw [hl, attemptBody_nonempty l ccid attempt 60 prev st hne hst he]
    rw [if_neg (by simp [hfail])]
    rw [if_pos hready]

theorem C5_amended_termination_witness :
    verify_nsx_configuration_status envEmpty "cc1" =
      .error (.exn "No transport nodes found for compute collection") ∧
    verifyAux envFail "cc1" 60 1 60 none =
      .error (.exn "Host preparation failed for: esx-f") ∧
    verifyAux envReady "cc1" 60 1 60 none = .ok () := by
  refine ⟨?_, ?_, ?_⟩
  · exact C5_amended_termination.1 envEmpty "cc1" (fun a _ _ => ⟨[], rfl, rfl⟩)
  · have h := C5_amended_termination.2.1 envFail "cc1" 1 59 none [nodeFailT]
      { all_ready := false, failed := ["esx-f"], last := some dDown }
      rfl (by decide) (by decide) rfl (by decide)
    exact h
  · have h := C5_amended_termination.2.2 envReady "cc1" 1 59 none [nodeOkT]
      { last := some dUp } rfl (by decide) (by decide) rfl rfl rfl
    exact h

/-- C10: an exception escaping a verification attempt — a listing failure, an
internal error, or one of the attempt's own raises — is re-raised at once
exactly when its message case-insensitively contains "failed" or "error";
otherwise (shown for listing errors) it is retried attempt after attempt
until the 60-attempt budget is exhausted, and the last attempt's exception is
then propagated. -/
theorem C10_outer_exception_classification :
    (∀ (env : Nat → Except PyErr (List TNode)) (ccid : String) (attempt fuel : Nat)
        (prev last : Option NodeStatusData) (e : PyErr),
      attemptBody (env attempt) ccid attempt 60 prev = (.raised e, last) →
      (strInLower "failed" e.str || strInLower "error" e.str) = true →
      verifyAux env ccid 60 attempt (fuel + 1) prev = .error e) ∧
    (∀ (env : Nat → Except PyErr (List TNode)) (ccid : String) (e : Nat → PyErr),
      (∀ a, 1 ≤ a → a ≤ 60 → env a = .error (e a) ∧
        (strInLower "failed" (e a).str || strInLower "error" (e a).str) = false) →
      verify_nsx_configuration_status env ccid = .error (e 60)) := by
  constructor
  · intro env ccid attempt fuel prev last e hab hcls
    unfold verifyAux
    rw [hab]
    show (if (strInLower "failed" e.str || strInLower "error" e.str) = true
      then Except.error e
      else if attempt < 60 then verifyAux env ccid 60 (attempt + 1) fuel last
      else Except.error e) = Except.error e
    rw [if_pos hcls]
  · intro env ccid e henv
    exact verifyAux_listing_error env ccid e 60 1 none (by omega) (by omega) henv

theorem C10_outer_exception_classification_witness :
    (attemptBody (envFatal 1) "cc1" 1 60 none =
      (.raised (.exn "Internal Error"), none) ∧
      (strInLower "failed" "Internal Error" || strInLower "error" "Internal Error") = true ∧
      verifyAux envFatal "cc1" 60 1 60 none = .error (.exn "Internal Error")) ∧
    verify_nsx_configuration_status envTransient "cc1" =
      .error (.exn "connection reset by peer") := by
  refine ⟨⟨rfl, by decide, ?_⟩, ?_⟩
  · exact C10_outer_exception_classification.1 envFatal "cc1" 1 59 none none
      (.exn "Internal Error") rfl (by decide)
  · refine C10_outer_exception_classification.2 envTransient "cc1"
      (fun _ => .exn "connection reset by peer") (fun a _ _ => ⟨rfl, ?_⟩)
    show (strInLower "failed" (PyErr.exn "connection reset by peer").str ||
      strInLower "error" (PyErr.exn "connection reset by peer").str) = false
    decide
